import Mathlib

/-!
Shallow embedding of the excons SDK-configurator modules
(`tools/arnold.py`, `tools/maya.py`, `tools/houdini.py`, `tools/python.py`).

Conventions used throughout:
* Python dictionaries and the excons argument facility are association lists
  `List (String × α)` with Python's update-in-place-or-append semantics.
* The filesystem is a value `FS`: a list of existing directories and a map
  from file path to the file's lines (lines are stored without the trailing
  newline; every regular expression the code applies to a line stops at
  whitespace or has no end anchor, so the trailing "\n" kept by Python's
  `readlines` never influences a result).
* Machine strings are Lean `String`s; Python `int`/`float` conversions are
  embedded as explicit partial parsers returning `Option` and raising
  (`Except.error`) where the Python code would raise.
* Functions that can raise are `Except String`-valued; `sys.exit(n)` in the
  python tool is a distinguished failure `PyFail.exit n`.
-/

/-- Association-list lookup (Python `dict.get` / `dict[...]` semantics). -/
def dictGet {α : Type} : List (String × α) → String → Option α
  | [], _ => none
  | (k', v) :: t, k => if k' = k then some v else dictGet t k

/-- Association-list update: replace the value of an existing key in place,
otherwise append the binding (Python `d[k] = v` semantics). -/
def dictSet {α : Type} : List (String × α) → String → α → List (String × α)
  | [], k, v => [(k, v)]
  | (k', v') :: t, k, v => if k' = k then (k, v) :: t else (k', v') :: dictSet t k v

/-- The excons command-line argument store (`with-<sdk>=`, `mscver=`, ...). -/
abbrev Args := List (String × String)

/-- Modelled from the spec: `excons.GetArgument` of the external
argument-parsing/caching facility (not under src/) — looks a named
orchestrator argument up. -/
def getArg (args : Args) (k : String) : Option String := dictGet args k

/-- Modelled from the spec: `excons.SetArgument` of the external argument
facility — pre-sets a named orchestrator argument. -/
def setArgument (args : Args) (k v : String) : Args := dictSet args k v

/-- Process environment variables (`os.environ`). -/
abbrev EnvVars := List (String × String)

/-- The filesystem as seen through `os.path.isdir` / `os.path.isfile` /
`io.open(...).readlines()`. -/
structure FS where
  dirs : List String
  files : List (String × List String)
deriving DecidableEq

/-- `os.path.isdir`. -/
def FS.isdir (fs : FS) (p : String) : Bool := fs.dirs.contains p

/-- Contents of a text file, as a list of lines. -/
def FS.readLines (fs : FS) (p : String) : Option (List String) := dictGet fs.files p

/-- `os.path.isfile`. -/
def FS.isfile (fs : FS) (p : String) : Bool := (fs.readLines p).isSome

/-- The mutable SCons build environment: the lists and flag strings the
configurators append to (`env.Append(...)`). -/
structure Env where
  cppPath : List String := []
  libPath : List String := []
  libs : List String := []
  cppDefines : List String := []
  ccFlags : String := ""
  cxxFlags : String := ""
  cppFlags : String := ""
  linkFlags : String := ""
deriving DecidableEq

/-- Modelled from the spec: `excons.WarnOnce` of the external facility — the
shared deduplicated-warning ("print once") state is the list of messages
already emitted; a message is emitted only if it is new. -/
def warnOnce (msg : String) (w : List String) : List String :=
  if w.contains msg then w else w ++ [msg]

/-- Python truthiness of an optional string (`if not s:` — both `None` and
the empty string are falsy). -/
def pyTruthy : Option String → Bool
  | none => false
  | some s => s ≠ ""

/-- Numeric value of a list of decimal digit characters. -/
def digitsVal (cs : List Char) : Nat :=
  cs.foldl (fun a c => 10 * a + (c.toNat - 48)) 0

/-- Python `int(s)` on a whitespace-free token: optional sign followed by
decimal digits; anything else raises (`none`). -/
def pyInt : List Char → Option Int
  | [] => none
  | c :: cs =>
    if c = '-' then
      if cs ≠ [] ∧ cs.all Char.isDigit then some (-(digitsVal cs : Int)) else none
    else if c = '+' then
      if cs ≠ [] ∧ cs.all Char.isDigit then some ((digitsVal cs : Int)) else none
    else if (c :: cs).all Char.isDigit then some ((digitsVal (c :: cs) : Int)) else none

/-- `s.replace(a, b)` for a single-character pattern (kernel-computable,
unlike core `String.replace`). -/
def mapReplaceChar (a b : Char) (s : String) : String :=
  String.mk (s.toList.map (fun c => if c = a then b else c))

/-- `s.replace(a, "")` for a single-character pattern. -/
def dropAllChar (a : Char) (s : String) : String :=
  String.mk (s.toList.filter (fun c => !(c = a)))

/-- Does the string start with the given character (`os.path.isabs` on posix
is `startswith("/")`)? -/
def strHeadIs (c : Char) (s : String) : Bool :=
  match s.toList with
  | c0 :: _ => c0 = c
  | [] => false

/-- `str.split(sep)` for a single-character separator (Python semantics:
`"".split(".") == [""]`). -/
def splitOnChar (sep : Char) : List Char → List (List Char)
  | [] => [[]]
  | c :: rest =>
    let r := splitOnChar sep rest
    if c = sep then [] :: r
    else
      match r with
      | h :: t => (c :: h) :: t
      | [] => [[c]]

/-- `sep.join` for the dot separator. -/
def joinDot : List (List Char) → List Char
  | [] => []
  | [x] => x
  | x :: y :: rest => x ++ '.' :: joinDot (y :: rest)

/-- Python `float(s)` restricted to the digit-dot-digit version/compiler
strings the tools feed it ("14", "18.5", ...); anything else raises. -/
def pyFloat (s : String) : Option ℚ :=
  match splitOnChar '.' s.toList with
  | [a] =>
    if a ≠ [] ∧ a.all Char.isDigit then some ((digitsVal a : ℚ)) else none
  | [a, b] =>
    if a ≠ [] ∧ b ≠ [] ∧ a.all Char.isDigit ∧ b.all Char.isDigit then
      some ((digitsVal a : ℚ) + (digitsVal b : ℚ) / ((10 : ℚ) ^ b.length))
    else none
  | _ => none

/-- `re.search(r"\d+", s)`: the first maximal run of decimal digits. -/
def firstDigitRun : List Char → Option (List Char)
  | [] => none
  | c :: rest =>
    if c.isDigit then some (c :: rest.takeWhile Char.isDigit) else firstDigitRun rest

/-- Strip a literal off the front of the input (`None` when it is not a
prefix). -/
def stripLit : List Char → List Char → Option (List Char)
  | [], cs => some cs
  | _ :: _, [] => none
  | l :: ls, c :: cs => if c = l then stripLit ls cs else none

/-- `\s*`: drop leading whitespace. -/
def dropSpaces (cs : List Char) : List Char := cs.dropWhile Char.isWhitespace

/-- `^\s*#define\s+`: optional leading whitespace, the literal `#define`,
then at least one whitespace character (consumed greedily). -/
def afterDefine (cs : List Char) : Option (List Char) :=
  match stripLit "#define".toList (dropSpaces cs) with
  | none => none
  | some cs =>
    match cs with
    | [] => none
    | c :: _ => if c.isWhitespace then some (dropSpaces cs) else none

/-- `key\s+([^\s]+)`: the literal key, at least one whitespace character,
then the captured maximal nonempty run of non-whitespace characters. -/
def keyValue (key : String) (cs : List Char) : Option (List Char) :=
  match stripLit key.toList cs with
  | none => none
  | some cs =>
    match cs with
    | [] => none
    | c :: _ =>
      if c.isWhitespace then
        let tok := (dropSpaces cs).takeWhile (fun ch => !ch.isWhitespace)
        if tok = [] then none else some tok
      else none

/-- `key\s+([0-9]+)`: the literal key, at least one whitespace character,
then the captured maximal nonempty run of digits. -/
def keyDigits (key : String) (cs : List Char) : Option (List Char) :=
  match stripLit key.toList cs with
  | none => none
  | some cs =>
    match cs with
    | [] => none
    | c :: _ =>
      if c.isWhitespace then
        let ds := (dropSpaces cs).takeWhile Char.isDigit
        if ds = [] then none else some ds
      else none

/-! ### tools/arnold.py -/

/-- Modelled from the spec: `excons.GetDirs("arnold", libdirname=...)` of the
external facility (not under src/) — resolves the Arnold include and library
directories from `with-arnold-inc=` / `with-arnold-lib=`, defaulting to
`<root>/include` and `<root>/<libdirname>` under `with-arnold=`; `(None,
None)` when no root is configured. The call site passes `libdirname = "bin"`
off win32 and `"lib"` on win32. -/
def arnoldGetDirs (args : Args) (platform : String) : Option String × Option String :=
  let root := getArg args "with-arnold"
  let libdirname := if platform ≠ "win32" then "bin" else "lib"
  let inc := (getArg args "with-arnold-inc").orElse (fun _ => root.map (· ++ "/include"))
  let lib := (getArg args "with-arnold-lib").orElse (fun _ => root.map (· ++ "/" ++ libdirname))
  (inc, lib)

/-- One line against
`^\s*#define\s+AI_VERSION_(ARCH_NUM|MAJOR_NUM|MINOR_NUM|FIX)\s+([^\s]+)`
(`re.match`, alternatives tried left to right); returns the matched
alternative and the captured value token. -/
def arnoldDefMatch (cs : List Char) : Option (String × List Char) :=
  match afterDefine cs with
  | none => none
  | some cs =>
    match stripLit "AI_VERSION_".toList cs with
    | none => none
    | some cs =>
      match keyValue "ARCH_NUM" cs with
      | some v => some ("ARCH_NUM", v)
      | none =>
        match keyValue "MAJOR_NUM" cs with
        | some v => some ("MAJOR_NUM", v)
        | none =>
          match keyValue "MINOR_NUM" cs with
          | some v => some ("MINOR_NUM", v)
          | none =>
            match keyValue "FIX" cs with
            | some v => some ("FIX", v)
            | none => none

/-- The line loop of `arnold.Version`, carrying the `(varch, vmaj, vmin,
vpatch)` accumulator; `int(...)` on a malformed ARCH/MAJOR/MINOR value
raises, a FIX value without digits yields 0, later matches overwrite
earlier ones. -/
def arnoldScanFrom (acc : Int × Int × Int × Int) :
    List String → Except String (Int × Int × Int × Int)
  | [] => .ok acc
  | line :: rest =>
    match arnoldDefMatch line.toList with
    | none => arnoldScanFrom acc rest
    | some (which, tok) =>
      if which = "ARCH_NUM" then
        match pyInt tok with
        | some n => arnoldScanFrom (n, acc.2.1, acc.2.2.1, acc.2.2.2) rest
        | none => .error ("ValueError: invalid literal for int(): " ++ String.mk tok)
      else if which = "MAJOR_NUM" then
        match pyInt tok with
        | some n => arnoldScanFrom (acc.1, n, acc.2.2.1, acc.2.2.2) rest
        | none => .error ("ValueError: invalid literal for int(): " ++ String.mk tok)
      else if which = "MINOR_NUM" then
        match pyInt tok with
        | some n => arnoldScanFrom (acc.1, acc.2.1, n, acc.2.2.2) rest
        | none => .error ("ValueError: invalid literal for int(): " ++ String.mk tok)
      else
        let vpatch : Int :=
          match firstDigitRun tok with
          | none => 0
          | some ds => (digitsVal ds : Int)
        arnoldScanFrom (acc.1, acc.2.1, acc.2.2.1, vpatch) rest

/-- The scan of `ai_version.h`, starting from all zeros. -/
def arnoldScan (lines : List String) : Except String (Int × Int × Int × Int) :=
  arnoldScanFrom (0, 0, 0, 0) lines

/-- The possible return shapes of `arnold.Version`. -/
inductive ArnoldVer
  | str (s : String)
  | t2 (a b : Int)
  | t4 (a b c d : Int)
deriving DecidableEq

/-- `arnold.Version(asString, compat)`: resolve the include directory, scan
`ai_version.h` for the four version macros (missing file or missing macros
default to zero), and format per `asString`/`compat`. Returns the all-zero
default when no root is configured. -/
def arnoldVersion (fs : FS) (args : Args) (platform : String)
    (asString compat : Bool) : Except String ArnoldVer :=
  match (arnoldGetDirs args platform).1 with
  | none =>
    .ok (if compat then (if asString then .str "0.0" else .t2 0 0)
         else (if asString then .str "0.0.0.0" else .t4 0 0 0 0))
  | some arnoldinc =>
    let aiVersionFile := arnoldinc ++ "/ai_version.h"
    let scanned : Except String (Int × Int × Int × Int) :=
      match fs.readLines aiVersionFile with
      | none => .ok (0, 0, 0, 0)
      | some lines => arnoldScan lines
    match scanned with
    | .error e => .error e
    | .ok (va, vb, vc, vd) =>
      .ok (if compat then
             (if asString then .str (toString va ++ "." ++ toString vb) else .t2 va vb)
           else
             (if asString then
                .str (toString va ++ "." ++ toString vb ++ "." ++ toString vc ++ "." ++ toString vd)
              else .t4 va vb vc vd))

/-- `s1` occurs as a contiguous sublist of `s2` (Python `in` on strings). -/
def listIsPrefixB : List Char → List Char → Bool
  | [], _ => true
  | _ :: _, [] => false
  | a :: as_, b :: bs => a = b && listIsPrefixB as_ bs

/-- Contiguous-substring test used for `"-std=c++11" in " ".join(env["CXXFLAGS"])`. -/
def listHasInfix (sub : List Char) : List Char → Bool
  | [] => listIsPrefixB sub []
  | c :: rest => listIsPrefixB sub (c :: rest) || listHasInfix sub rest

/-- `arnold.Require(env)`: append resolved include/library directories, check
the compiler against the major version (on win32 `float(excons.mscver)` can
raise), possibly force `-std=c++11`, and always append the `ai` library.
(`excons.AddHelpOptions` and the `use-c++11` argument write-back only touch
help text and the external argument cache, not the environment.) -/
def arnoldRequire (fs : FS) (args : Args) (platform mscver : String)
    (env : Env) : Except String Env :=
  let dirs := arnoldGetDirs args platform
  let env := match dirs.1 with
    | some i => { env with cppPath := env.cppPath ++ [i] }
    | none => env
  let env := match dirs.2 with
    | some l => { env with libPath := env.libPath ++ [l] }
    | none => env
  match arnoldVersion fs args platform false false with
  | .error e => .error e
  | .ok av =>
    let a : Int := match av with | .t4 x _ _ _ => x | _ => 0
    let chk : Except String Unit :=
      if a ≥ 5 ∧ platform = "win32" then
        match pyFloat mscver with
        | none => .error ("ValueError: could not convert string to float: " ++ mscver)
        | some _ => .ok ()  -- only a WarnOnce when mscver < 14
      else .ok ()
    match chk with
    | .error e => .error e
    | .ok _ =>
      let env :=
        if a ≥ 6 ∧ platform ≠ "win32" ∧
            !(listHasInfix "-std=c++11".toList env.cxxFlags.toList) then
          { env with cxxFlags := env.cxxFlags ++ " -std=c++11" }
        else env
      .ok { env with libs := env.libs ++ ["ai"] }

/-! ### Generic lemmas about the character-level parsers -/

theorem string_toList_append (a b : String) : (a ++ b).toList = a.toList ++ b.toList := rfl

theorem string_toList_mk (cs : List Char) : (String.mk cs).toList = cs := rfl

theorem takeWhile_all {p : Char → Bool} :
    ∀ l : List Char, (∀ c ∈ l, p c = true) → l.takeWhile p = l
  | [], _ => rfl
  | c :: cs, h => by
    rw [List.takeWhile_cons_of_pos (h c (by simp))]
    rw [takeWhile_all cs (fun x hx => h x (by simp [hx]))]

theorem takeWhile_append_all {p : Char → Bool} :
    ∀ l1 l2 : List Char, (∀ c ∈ l1, p c = true) →
      (l1 ++ l2).takeWhile p = l1 ++ l2.takeWhile p
  | [], _, _ => rfl
  | c :: cs, l2, h => by
    rw [List.cons_append, List.takeWhile_cons_of_pos (h c (by simp))]
    rw [takeWhile_append_all cs l2 (fun x hx => h x (by simp [hx]))]
    simp

theorem dropSpaces_all_not (l : List Char) (h : l.all (fun ch => !ch.isWhitespace) = true) :
    dropSpaces l = l := by
  cases l with
  | nil => rfl
  | cons c cs =>
    have hc : c.isWhitespace = false := by
      simp [List.all_cons] at h
      simpa using h.1
    simp [dropSpaces, List.dropWhile_cons_of_neg, hc]

theorem takeWhile_nonspace_all (l : List Char)
    (h : l.all (fun ch => !ch.isWhitespace) = true) :
    l.takeWhile (fun ch => !ch.isWhitespace) = l := by
  apply takeWhile_all
  intro c hc
  exact List.all_eq_true.mp h c hc

theorem pyInt_digits (c : Char) (cs : List Char)
    (h2 : (c :: cs).all Char.isDigit = true) :
    pyInt (c :: cs) = some ((digitsVal (c :: cs) : Int)) := by
  have hc : c.isDigit = true := by
    simp [List.all_cons] at h2
    exact h2.1
  have hminus : ¬(c = '-') := by rintro rfl; exact absurd hc (by decide)
  have hplus : ¬(c = '+') := by rintro rfl; exact absurd hc (by decide)
  simp [pyInt, hminus, hplus, h2]

theorem firstDigitRun_leading (d1 : Char) (ds rest : List Char)
    (hd : (d1 :: ds).all Char.isDigit = true)
    (hrest : rest = [] ∨ ∃ c cs, rest = c :: cs ∧ c.isDigit = false) :
    firstDigitRun ((d1 :: ds) ++ rest) = some (d1 :: ds) := by
  have hd1 : d1.isDigit = true := by
    simp [List.all_cons] at hd
    exact hd.1
  have hds : ∀ c ∈ ds, c.isDigit = true := by
    intro c hc
    simp [List.all_cons] at hd
    exact hd.2 c hc
  have hrest' : rest.takeWhile Char.isDigit = [] := by
    rcases hrest with h | ⟨c, cs, rfl, hcd⟩
    · simp [h]
    · simp [List.takeWhile_cons_of_neg, hcd]
  simp only [List.cons_append, firstDigitRun, hd1, if_pos]
  rw [show (ds.append rest) = ds ++ rest from rfl]
  rw [takeWhile_append_all ds rest hds, hrest']
  simp

theorem keyValue_tail_eval (tok : List Char) (h1 : tok ≠ [])
    (h2 : tok.all (fun ch => !ch.isWhitespace) = true) :
    (if ((dropSpaces tok).takeWhile (fun ch => !ch.isWhitespace)) = [] then
        (none : Option (List Char))
      else some ((dropSpaces tok).takeWhile (fun ch => !ch.isWhitespace))) = some tok := by
  rw [dropSpaces_all_not tok h2, takeWhile_nonspace_all tok h2, if_neg h1]

theorem arnoldDefMatch_arch (tok : List Char) (h1 : tok ≠ [])
    (h2 : tok.all (fun ch => !ch.isWhitespace) = true) :
    arnoldDefMatch ("#define AI_VERSION_ARCH_NUM ".toList ++ tok) = some ("ARCH_NUM", tok) := by
  have hbase : arnoldDefMatch ("#define AI_VERSION_ARCH_NUM ".toList ++ tok) =
      (match (if ((dropSpaces tok).takeWhile (fun ch => !ch.isWhitespace)) = [] then
                (none : Option (List Char))
              else some ((dropSpaces tok).takeWhile (fun ch => !ch.isWhitespace))) with
       | some v => some ("ARCH_NUM", v)
       | none => none) := rfl
  rw [hbase, keyValue_tail_eval tok h1 h2]

theorem arnoldDefMatch_major (tok : List Char) (h1 : tok ≠ [])
    (h2 : tok.all (fun ch => !ch.isWhitespace) = true) :
    arnoldDefMatch ("#define AI_VERSION_MAJOR_NUM ".toList ++ tok) = some ("MAJOR_NUM", tok) := by
  have hbase : arnoldDefMatch ("#define AI_VERSION_MAJOR_NUM ".toList ++ tok) =
      (match (if ((dropSpaces tok).takeWhile (fun ch => !ch.isWhitespace)) = [] then
                (none : Option (List Char))
              else some ((dropSpaces tok).takeWhile (fun ch => !ch.isWhitespace))) with
       | some v => some ("MAJOR_NUM", v)
       | none => none) := rfl
  rw [hbase, keyValue_tail_eval tok h1 h2]

theorem arnoldDefMatch_minor (tok : List Char) (h1 : tok ≠ [])
    (h2 : tok.all (fun ch => !ch.isWhitespace) = true) :
    arnoldDefMatch ("#define AI_VERSION_MINOR_NUM ".toList ++ tok) = some ("MINOR_NUM", tok) := by
  have hbase : arnoldDefMatch ("#define AI_VERSION_MINOR_NUM ".toList ++ tok) =
      (match (if ((dropSpaces tok).takeWhile (fun ch => !ch.isWhitespace)) = [] then
                (none : Option (List Char))
              else some ((dropSpaces tok).takeWhile (fun ch => !ch.isWhitespace))) with
       | some v => some ("MINOR_NUM", v)
       | none => none) := rfl
  rw [hbase, keyValue_tail_eval tok h1 h2]

theorem arnoldDefMatch_fix (tok : List Char) (h1 : tok ≠ [])
    (h2 : tok.all (fun ch => !ch.isWhitespace) = true) :
    arnoldDefMatch ("#define AI_VERSION_FIX ".toList ++ tok) = some ("FIX", tok) := by
  have hbase : arnoldDefMatch ("#define AI_VERSION_FIX ".toList ++ tok) =
      (match (if ((dropSpaces tok).takeWhile (fun ch => !ch.isWhitespace)) = [] then
                (none : Option (List Char))
              else some ((dropSpaces tok).takeWhile (fun ch => !ch.isWhitespace))) with
       | some v => some ("FIX", v)
       | none => none) := rfl
  rw [hbase, keyValue_tail_eval tok h1 h2]

theorem digit_not_space (c : Char) (hd : c.isDigit = true) : c.isWhitespace = false := by
  cases hdec : c.isWhitespace
  · rfl
  · exfalso
    have h1 : c = ' ' ∨ c = '\t' ∨ c = '\r' ∨ c = '\n' := by
      simp [Char.isWhitespace] at hdec
      tauto
    rcases h1 with rfl | rfl | rfl | rfl <;> exact absurd hd (by decide)

theorem all_digit_nospace (l : List Char) (hl : l.all Char.isDigit = true) :
    l.all (fun ch => !ch.isWhitespace) = true := by
  rw [List.all_eq_true] at hl ⊢
  intro c hcmem
  simp [digit_not_space c (hl c hcmem)]

set_option maxHeartbeats 1000000 in
theorem arnoldScan_four_lines (sa sb sc dfix rest : List Char)
    (ha1 : sa ≠ []) (ha2 : sa.all Char.isDigit = true)
    (hb1 : sb ≠ []) (hb2 : sb.all Char.isDigit = true)
    (hc1 : sc ≠ []) (hc2 : sc.all Char.isDigit = true)
    (hf1 : dfix ≠ []) (hf2 : dfix.all Char.isDigit = true)
    (hr : rest = [] ∨ ∃ c cs, rest = c :: cs ∧ c.isDigit = false)
    (hf3 : (dfix ++ rest).all (fun ch => !ch.isWhitespace) = true) :
    arnoldScan ["#define AI_VERSION_ARCH_NUM " ++ String.mk sa,
        "#define AI_VERSION_MAJOR_NUM " ++ String.mk sb,
        "#define AI_VERSION_MINOR_NUM " ++ String.mk sc,
        "#define AI_VERSION_FIX " ++ String.mk (dfix ++ rest)] =
      .ok ((digitsVal sa : Int), (digitsVal sb : Int), (digitsVal sc : Int),
        (digitsVal dfix : Int)) := by
  have e1 : arnoldDefMatch ("#define AI_VERSION_ARCH_NUM " ++ String.mk sa).toList =
      some ("ARCH_NUM", sa) := by
    rw [string_toList_append, string_toList_mk]
    exact arnoldDefMatch_arch sa ha1 (all_digit_nospace sa ha2)
  have e2 : arnoldDefMatch ("#define AI_VERSION_MAJOR_NUM " ++ String.mk sb).toList =
      some ("MAJOR_NUM", sb) := by
    rw [string_toList_append, string_toList_mk]
    exact arnoldDefMatch_major sb hb1 (all_digit_nospace sb hb2)
  have e3 : arnoldDefMatch ("#define AI_VERSION_MINOR_NUM " ++ String.mk sc).toList =
      some ("MINOR_NUM", sc) := by
    rw [string_toList_append, string_toList_mk]
    exact arnoldDefMatch_minor sc hc1 (all_digit_nospace sc hc2)
  have e4 : arnoldDefMatch ("#define AI_VERSION_FIX " ++ String.mk (dfix ++ rest)).toList =
      some ("FIX", dfix ++ rest) := by
    rw [string_toList_append, string_toList_mk]
    exact arnoldDefMatch_fix (dfix ++ rest) (by simp [hf1]) hf3
  obtain ⟨a0, sa', rfl⟩ : ∃ a0 sa', sa = a0 :: sa' := by
    cases sa with | nil => exact absurd rfl ha1 | cons x xs => exact ⟨x, xs, rfl⟩
  obtain ⟨b0, sb', rfl⟩ : ∃ b0 sb', sb = b0 :: sb' := by
    cases sb with | nil => exact absurd rfl hb1 | cons x xs => exact ⟨x, xs, rfl⟩
  obtain ⟨c0, sc', rfl⟩ : ∃ c0 sc', sc = c0 :: sc' := by
    cases sc with | nil => exact absurd rfl hc1 | cons x xs => exact ⟨x, xs, rfl⟩
  obtain ⟨f0, df', rfl⟩ : ∃ f0 df', dfix = f0 :: df' := by
    cases dfix with | nil => exact absurd rfl hf1 | cons x xs => exact ⟨x, xs, rfl⟩
  have p1 := pyInt_digits a0 sa' ha2
  have p2 := pyInt_digits b0 sb' hb2
  have p3 := pyInt_digits c0 sc' hc2
  have p4 := firstDigitRun_leading f0 df' rest hf2 hr
  simp only [arnoldScan, arnoldScanFrom, e1, e2, e3, e4, p1, p2, p3, p4, String.reduceEq,
    reduceIte]

theorem arnoldVersion_eval (fs : FS) (args : Args) (platform inc : String)
    (lines : List String) (va vb vc vd : Int)
    (hinc : (arnoldGetDirs args platform).1 = some inc)
    (hfile : fs.readLines (inc ++ "/ai_version.h") = some lines)
    (hscan : arnoldScan lines = .ok (va, vb, vc, vd)) :
    arnoldVersion fs args platform false false = .ok (.t4 va vb vc vd) ∧
    arnoldVersion fs args platform true false =
      .ok (.str (toString va ++ "." ++ toString vb ++ "." ++ toString vc ++ "."
        ++ toString vd)) := by
  constructor <;> simp only [arnoldVersion, hinc, hfile, hscan, Bool.false_eq_true, if_false,
    if_true, reduceIte]

/-- Claim C1: for a header defining the four `AI_VERSION_*` macros with
digit values (the FIX value may carry a non-digit suffix after its leading
digits), `arnold.Version` returns exactly those four integers in order —
`(arch, major, minor, fix)` as a tuple when `asString=False` and the dotted
string when `asString=True` — and an absent macro defaults to zero. -/
theorem arnold_version_parses_macros :
    (∀ (fs : FS) (args : Args) (platform inc : String) (sa sb sc dfix rest : List Char),
      (arnoldGetDirs args platform).1 = some inc →
      fs.readLines (inc ++ "/ai_version.h") =
        some ["#define AI_VERSION_ARCH_NUM " ++ String.mk sa,
              "#define AI_VERSION_MAJOR_NUM " ++ String.mk sb,
              "#define AI_VERSION_MINOR_NUM " ++ String.mk sc,
              "#define AI_VERSION_FIX " ++ String.mk (dfix ++ rest)] →
      sa ≠ [] → sa.all Char.isDigit = true →
      sb ≠ [] → sb.all Char.isDigit = true →
      sc ≠ [] → sc.all Char.isDigit = true →
      dfix ≠ [] → dfix.all Char.isDigit = true →
      (rest = [] ∨ ∃ c cs, rest = c :: cs ∧ c.isDigit = false) →
      ((dfix ++ rest).all (fun ch => !ch.isWhitespace) = true) →
      arnoldVersion fs args platform false false =
        .ok (.t4 (digitsVal sa) (digitsVal sb) (digitsVal sc) (digitsVal dfix)) ∧
      arnoldVersion fs args platform true false =
        .ok (.str (toString (digitsVal sa : Int) ++ "." ++ toString (digitsVal sb : Int)
          ++ "." ++ toString (digitsVal sc : Int) ++ "." ++ toString (digitsVal dfix : Int))))
    ∧
    (∀ (fs : FS) (args : Args) (platform inc : String) (sb : List Char),
      (arnoldGetDirs args platform).1 = some inc →
      fs.readLines (inc ++ "/ai_version.h") =
        some ["#define AI_VERSION_MAJOR_NUM " ++ String.mk sb] →
      sb ≠ [] → sb.all Char.isDigit = true →
      arnoldVersion fs args platform false false = .ok (.t4 0 (digitsVal sb) 0 0)) := by
  constructor
  · intro fs args platform inc sa sb sc dfix rest hinc hfile ha1 ha2 hb1 hb2 hc1 hc2 hf1 hf2
      hr hf3
    exact arnoldVersion_eval fs args platform inc _ _ _ _ _ hinc hfile
      (arnoldScan_four_lines sa sb sc dfix rest ha1 ha2 hb1 hb2 hc1 hc2 hf1 hf2 hr hf3)
  · intro fs args platform inc sb hinc hfile hb1 hb2
    have e2 : arnoldDefMatch ("#define AI_VERSION_MAJOR_NUM " ++ String.mk sb).toList =
        some ("MAJOR_NUM", sb) := by
      rw [string_toList_append, string_toList_mk]
      exact arnoldDefMatch_major sb hb1 (all_digit_nospace sb hb2)
    obtain ⟨b0, sb', rfl⟩ : ∃ b0 sb', sb = b0 :: sb' := by
      cases sb with | nil => exact absurd rfl hb1 | cons x xs => exact ⟨x, xs, rfl⟩
    have p2 := pyInt_digits b0 sb' hb2
    have hscan : arnoldScan ["#define AI_VERSION_MAJOR_NUM " ++ String.mk (b0 :: sb')] =
        .ok (0, (digitsVal (b0 :: sb') : Int), 0, 0) := by
      simp only [arnoldScan, arnoldScanFrom, e2, p2, String.reduceEq, reduceIte]
    exact (arnoldVersion_eval fs args platform inc _ _ _ _ _ hinc hfile hscan).1

/-- Sample state for the fabricated Arnold header of the spec. -/
def arnoldSampleFS : FS :=
  ⟨["/arnold/include"],
   [("/arnold/include/ai_version.h",
     ["#define AI_VERSION_ARCH_NUM 7", "#define AI_VERSION_MAJOR_NUM 1",
      "#define AI_VERSION_MINOR_NUM 2", "#define AI_VERSION_FIX 3abc"])]⟩

/-- Sample arguments configuring the Arnold root. -/
def arnoldSampleArgs : Args := [("with-arnold", "/arnold")]

/-- Witness for claim C1 at the spec's fabricated header
(`7 / 1 / 2 / 3abc`). -/
theorem arnold_version_parses_macros_witness :
    arnoldVersion arnoldSampleFS arnoldSampleArgs "linux" false false = .ok (.t4 7 1 2 3) ∧
    arnoldVersion arnoldSampleFS arnoldSampleArgs "linux" true false = .ok (.str "7.1.2.3") := by
  have h := arnold_version_parses_macros.1 arnoldSampleFS arnoldSampleArgs "linux"
    "/arnold/include" ['7'] ['1'] ['2'] ['3'] ['a', 'b', 'c'] rfl rfl
    (by decide) (by decide) (by decide) (by decide) (by decide) (by decide) (by decide)
    (by decide) (Or.inr ⟨'a', ['b', 'c'], rfl, by decide⟩) (by decide)
  exact ⟨h.1, h.2⟩

/-- Claim C8: when the Arnold include directory resolves (even to an existing
path) but `ai_version.h` does not exist inside it, `Version` does not raise
and returns the same all-zero result as the missing-root case, in all four
`asString`/`compat` combinations. -/
theorem arnold_version_missing_header (fs : FS) (args : Args) (platform inc : String)
    (hinc : (arnoldGetDirs args platform).1 = some inc)
    (hdir : fs.isdir inc = true)
    (hfile : fs.readLines (inc ++ "/ai_version.h") = none) :
    arnoldVersion fs args platform true false = .ok (.str "0.0.0.0") ∧
    arnoldVersion fs args platform false false = .ok (.t4 0 0 0 0) ∧
    arnoldVersion fs args platform true true = .ok (.str "0.0") ∧
    arnoldVersion fs args platform false true = .ok (.t2 0 0) := by
  refine ⟨?_, ?_, ?_, ?_⟩ <;> simp only [arnoldVersion, hinc, hfile, reduceIte] <;> rfl

/-- Witness for claim C8: an existing include directory without
`ai_version.h`. -/
theorem arnold_version_missing_header_witness :
    arnoldVersion ⟨["/arnold/include"], []⟩ arnoldSampleArgs "linux" true false =
      .ok (.str "0.0.0.0") ∧
    arnoldVersion ⟨["/arnold/include"], []⟩ arnoldSampleArgs "linux" false true =
      .ok (.t2 0 0) := by
  have h := arnold_version_missing_header ⟨["/arnold/include"], []⟩ arnoldSampleArgs "linux"
    "/arnold/include" rfl rfl rfl
  exact ⟨h.1, h.2.2.2⟩

/-! ### tools/maya.py -/

/-- The MSVC table `_maya_mscver`. -/
def mayaMscverTable : List (String × String) :=
  [("2013", "9.0"), ("2013.5", "9.0"), ("2014", "10.0"), ("2015", "11.0"), ("2016", "11.0"),
   ("2016.5", "11.0"), ("2017", "11.0"), ("2018", "14.0"), ("2019", "14.0"), ("2020", "14.1"),
   ("2022", "14.2"), ("2023", "14.2"), ("2024", "14.3")]

/-- The GCC table `_maya_gccver`. -/
def mayaGccverTable : List (String × String) :=
  [("2019", "6"), ("2020", "6"), ("2022", "9"), ("2023", "9"), ("2024", "11")]

/-- `re.match(r"\d+(\.\d+)?", s)` succeeds exactly when the string starts
with a digit. -/
def matchDigitPrefix (s : String) : Bool :=
  match s.toList with
  | c :: _ => c.isDigit
  | [] => false

/-- Strip one trailing `/` as the maya tool does after `replace("\\", "/")`
(`if len(s) > 0 and s[-1] == "/": s = s[:-1]`). -/
def stripTrailSlash (s : String) : String :=
  match s.toList.getLast? with
  | some '/' => String.mk s.toList.dropLast
  | _ => s

/-- `maya.GetMayaRoot(noWarn)`: `MAYA_LOCATION` wins unless `with-maya` was
given on the command line; otherwise the `with-maya` value is either an
existing directory (normalized) or a version number expanded through the
per-platform install-path template. `noWarn` only silences warnings and does
not change the returned value. -/
def getMayaRoot (fs : FS) (args : Args) (envv : EnvVars) (platform archDir : String)
    (noWarn : Bool) : Option String :=
  let _ := noWarn
  let mayaspec := getArg args "with-maya"
  let fromSpec : Option String :=
    if !(pyTruthy mayaspec) then none
    else
      match mayaspec with
      | none => none
      | some ms =>
        if !(fs.isdir ms) then
          if !(matchDigitPrefix ms) then none
          else
            let ver := ms
            if platform = "win32" then
              some (if archDir = "x64" then "C:/Program Files/Autodesk/Maya" ++ ver
                    else "C:/Program Files (x86)/Autodesk/Maya" ++ ver)
            else if platform = "darwin" then some ("/Applications/Autodesk/maya" ++ ver)
            else
              let mayadir := "/usr/autodesk/maya" ++ ver
              some (if archDir = "x64" ∧ fs.isdir (mayadir ++ "-x64") then mayadir ++ "-x64"
                    else mayadir)
        else some (stripTrailSlash (mapReplaceChar '\\' '/' ms))
  match dictGet envv "MAYA_LOCATION" with
  | some loc => if !(getArg args "with-maya").isSome then some loc else fromSpec
  | none => fromSpec

/-- `maya.GetMayaInc(mayadir)`: headers live under the devkit when the base
install has no `include/maya` (2016+); `MAYA_INCLUDE` wins unless a devkit
was explicitly requested; `with-mayadevkit` may be absolute or relative to
the install root. (`os.path.isabs` is modelled for posix paths.) -/
def getMayaInc (fs : FS) (args : Args) (envv : EnvVars) (mayadir platform : String) : String :=
  let require_mdk :=
    if platform = "darwin" then !(fs.isdir (mayadir ++ "/devkit/include/maya"))
    else !(fs.isdir (mayadir ++ "/include/maya"))
  let mdk := if require_mdk then getArg args "with-mayadevkit" else none
  let rest :=
    match mdk with
    | none => if platform = "darwin" then mayadir ++ "/devkit/include" else mayadir ++ "/include"
    | some mdk0 =>
      let m := stripTrailSlash (mapReplaceChar '\\' '/' mdk0)
      if strHeadIs '/' m then m ++ "/include" else mayadir ++ "/" ++ m ++ "/include"
  match dictGet envv "MAYA_INCLUDE" with
  | some mi => if !require_mdk || !((getArg args "with-mayadevkit").isSome) then mi else rest
  | none => rest

/-- One line against `^\s*#define\s+MAYA_API_VERSION\s+([0-9]+)`; returns
the captured digit run. -/
def mayaApiLine (cs : List Char) : Option (List Char) :=
  match afterDefine cs with
  | none => none
  | some cs => keyDigits "MAYA_API_VERSION" cs

/-- The line loop of `maya.Version`: the first matching line wins (the
function returns from inside the loop). -/
def mayaLineLoop : List String → Option (List Char)
  | [] => none
  | line :: rest =>
    match mayaApiLine line.toList with
    | some ds => some ds
    | none => mayaLineLoop rest

/-- Return shapes of `maya.Version`: Python `None`, a string, or a number
(int or float, embedded as `ℚ`). -/
inductive MayaVer
  | noneV
  | str (s : String)
  | num (q : ℚ)
deriving DecidableEq

/-- `maya.Version(asString, nice)`: resolve the root and include dir, scan
`MTypes.h` for `MAYA_API_VERSION`; `nice` reports `<year>.5` (string) /
`year + 0.5` (number) exactly for a sub-release digit ≥ 5 in the years 2013
and 2016, and the bare year otherwise; without `nice` the raw macro value is
returned. A macro value shorter than five characters raises `IndexError`
(`m.group(1)[4]`). The version-mismatch check against `with-maya` only warns
and is omitted. -/
def mayaVersion (fs : FS) (args : Args) (envv : EnvVars) (platform archDir : String)
    (asString nice : Bool) : Except String MayaVer :=
  match getMayaRoot fs args envv platform archDir true with
  | none => .ok (if asString then .str "" else .noneV)
  | some mayadir =>
    if mayadir = "" then .ok (if asString then .str "" else .noneV)
    else
      let mayainc := getMayaInc fs args envv mayadir platform
      let mtypes := mayainc ++ "/maya/MTypes.h"
      match fs.readLines mtypes with
      | some lines =>
        match mayaLineLoop lines with
        | some ds =>
          if ds.length < 5 then .error "IndexError: string index out of range"
          else
            let yearN := digitsVal (ds.take 4)
            let sub := (ds.getD 4 '0').toNat - 48
            if nice then
              if 5 ≤ sub ∧ (yearN = 2013 ∨ yearN = 2016) then
                .ok (if asString then .str (toString yearN ++ ".5")
                     else .num ((yearN : ℚ) + 1 / 2))
              else .ok (if asString then .str (toString yearN) else .num ((yearN : ℚ)))
            else .ok (if asString then .str (String.mk ds) else .num ((digitsVal ds : ℚ)))
        | none => .ok (if asString then .str "" else .noneV)
      | none => .ok (if asString then .str "" else .noneV)

/-- The fixed Maya link libraries appended by `maya.Require`. -/
def mayaLibs : List String :=
  ["OpenMaya", "OpenMayaAnim", "OpenMayaFX", "OpenMayaRender", "OpenMayaUI", "Foundation"]

/-- `maya.Require(env)`: returns the environment untouched when no root
resolves; otherwise appends include/lib paths, defines, per-platform flags
(the darwin and linux branches consult `Version(asString=False, nice=True)`
for the language standard) and the six Maya libraries. Warnings and
`AddHelpOptions` have no environment effect. -/
def mayaRequire (fs : FS) (args : Args) (envv : EnvVars) (platform archDir : String)
    (env : Env) : Except String Env :=
  match getMayaRoot fs args envv platform archDir false with
  | none => .ok env
  | some mayadir =>
    if mayadir = "" then .ok env
    else
      let env := { env with
        cppPath := env.cppPath ++ [getMayaInc fs args envv mayadir platform],
        cppDefines := env.cppDefines ++ ["REQUIRE_IOSTREAM", "_BOOL"] }
      if platform = "darwin" then
        let env := { env with
          cppDefines := env.cppDefines ++ ["OSMac_"],
          cppFlags := env.cppFlags ++ " -Wno-unused-private-field",
          libPath := env.libPath ++ [mayadir ++ "/Maya.app/Contents/MacOS"] }
        let mach := getMayaInc fs args envv mayadir platform ++ "/maya/OpenMayaMac.h"
        let env :=
          if fs.isfile mach then
            { env with ccFlags := env.ccFlags ++ " -include \"" ++ mach ++ "\" -fno-gnu-keywords" }
          else env
        match mayaVersion fs args envv platform archDir false true with
        | .error e => .error e
        | .ok mv =>
          let env :=
            match mv with
            | .num q =>
              if q ≠ 0 ∧ 2018 ≤ q then { env with cppFlags := env.cppFlags ++ " -std=c++11" }
              else env
            | _ => env
          .ok { env with libs := env.libs ++ mayaLibs }
      else
        let env := { env with libPath := env.libPath ++ [mayadir ++ "/lib"] }
        if platform = "win32" then
          .ok { env with cppDefines := env.cppDefines ++ ["NT_PLUGIN"],
                         libs := env.libs ++ mayaLibs }
        else
          match mayaVersion fs args envv platform archDir false true with
          | .error e => .error e
          | .ok mv =>
            let env :=
              match mv with
              | .num q =>
                if q ≠ 0 ∧ q ∈ ([2018, 2019, 2020] : List ℚ) then
                  { env with cppFlags := env.cppFlags ++ " -std=c++11" }
                else if q ≠ 0 ∧ 2022 ≤ q then
                  { env with cppFlags := env.cppFlags ++ " -std=c++14" }
                else env
              | _ => env
            let env := { env with
              cppDefines := env.cppDefines ++ ["LINUX"],
              cppFlags := env.cppFlags ++
                " -fno-strict-aliasing -Wno-comment -Wno-sign-compare -funsigned-char -Wno-reorder -fno-gnu-keywords -pthread" }
            .ok { env with libs := env.libs ++ mayaLibs }

/-- `maya.SetupMscver()`: on win32, when `mscver=` is not already set, look
`Version(nice=True)` up in the MSVC table and pre-set `mscver`; a caller-set
`mscver` is left untouched. -/
def mayaSetupMscver (fs : FS) (args : Args) (envv : EnvVars) (platform archDir : String) :
    Except String Args :=
  if platform = "win32" then
    match getArg args "mscver" with
    | some _ => .ok args
    | none =>
      match mayaVersion fs args envv platform archDir true true with
      | .error e => .error e
      | .ok v =>
        -- Version(nice=True) with the default asString=True is always a string,
        -- hence never the Python None the source guards against
        let mayaver := match v with | .str s => s | _ => ""
        match dictGet mayaMscverTable mayaver with
        | some m => .ok (setArgument args "mscver" m)
        | none => .ok args
  else .ok args

/-- `maya.SetupGccver()`: on linux, when `devtoolset=` is not already set,
look `Version(nice=True)` up in the GCC table (defaulting to `""`) and
pre-set `devtoolset`; a caller-set `devtoolset` is left untouched. -/
def mayaSetupGccver (fs : FS) (args : Args) (envv : EnvVars) (platform archDir : String) :
    Except String Args :=
  if listIsPrefixB "linux".toList platform.toList then
    match getArg args "devtoolset" with
    | some _ => .ok args
    | none =>
      match mayaVersion fs args envv platform archDir true true with
      | .error e => .error e
      | .ok v =>
        let mayaver := match v with | .str s => s | _ => ""
        -- dict.get(mayaver, "") is never None, so SetArgument always runs
        let gccver := (dictGet mayaGccverTable mayaver).getD ""
        .ok (setArgument args "devtoolset" gccver)
  else .ok args

/-- `maya.SetupCompiler()`: dispatch on the platform. -/
def mayaSetupCompiler (fs : FS) (args : Args) (envv : EnvVars) (platform archDir : String) :
    Except String Args :=
  if platform = "win32" then mayaSetupMscver fs args envv platform archDir
  else mayaSetupGccver fs args envv platform archDir

/-- Claim C3: for a Maya header whose `MAYA_API_VERSION` digits encode a
year and a sub-release digit, `Version(nice=True)` reports `"<year>.5"` /
`year + 0.5` exactly when the sub-release digit is ≥ 5 and the year is 2013
or 2016; every other year ignores a sub-release digit ≥ 5 and the bare year
is returned. -/
theorem maya_nice_version_dot5 (fs : FS) (args : Args) (envv : EnvVars)
    (platform archDir d : String) (lines : List String) (ds : List Char)
    (hroot : getMayaRoot fs args envv platform archDir true = some d)
    (hne : d ≠ "")
    (hfile : fs.readLines (getMayaInc fs args envv d platform ++ "/maya/MTypes.h") = some lines)
    (hloop : mayaLineLoop lines = some ds)
    (hlen : 5 ≤ ds.length) :
    ((mayaVersion fs args envv platform archDir true true =
        .ok (.str (toString (digitsVal (ds.take 4)) ++ ".5")))
      ↔ (5 ≤ (ds.getD 4 '0').toNat - 48 ∧
         (digitsVal (ds.take 4) = 2013 ∨ digitsVal (ds.take 4) = 2016)))
    ∧
    ((mayaVersion fs args envv platform archDir false true =
        .ok (.num ((digitsVal (ds.take 4) : ℚ) + 1 / 2)))
      ↔ (5 ≤ (ds.getD 4 '0').toNat - 48 ∧
         (digitsVal (ds.take 4) = 2013 ∨ digitsVal (ds.take 4) = 2016)))
    ∧
    (¬(5 ≤ (ds.getD 4 '0').toNat - 48 ∧
        (digitsVal (ds.take 4) = 2013 ∨ digitsVal (ds.take 4) = 2016)) →
      mayaVersion fs args envv platform archDir true true =
        .ok (.str (toString (digitsVal (ds.take 4)))) ∧
      mayaVersion fs args envv platform archDir false true =
        .ok (.num ((digitsVal (ds.take 4) : ℚ)))) := by
  have hbase : ∀ b : Bool, mayaVersion fs args envv platform archDir b true =
      .ok (if 5 ≤ (ds.getD 4 '0').toNat - 48 ∧
              (digitsVal (ds.take 4) = 2013 ∨ digitsVal (ds.take 4) = 2016) then
             (if b then .str (toString (digitsVal (ds.take 4)) ++ ".5")
              else .num ((digitsVal (ds.take 4) : ℚ) + 1 / 2))
           else
             (if b then .str (toString (digitsVal (ds.take 4)))
              else .num ((digitsVal (ds.take 4) : ℚ)))) := by
    intro b
    simp only [mayaVersion, hroot, hfile, hloop, if_neg hne, if_neg (by omega : ¬ds.length < 5),
      if_pos]
    by_cases hc : 5 ≤ (ds.getD 4 '0').toNat - 48 ∧
        (digitsVal (ds.take 4) = 2013 ∨ digitsVal (ds.take 4) = 2016)
    · rw [if_pos hc, if_pos hc]
    · rw [if_neg hc, if_neg hc]
  have hstr_ne : (toString (digitsVal (ds.take 4)) ++ ".5") ≠ toString (digitsVal (ds.take 4)) := by
    intro h
    have h2 := congrArg String.length h
    rw [String.length_append, show (".5" : String).length = 2 from rfl] at h2
    omega
  have hnum_ne : ((digitsVal (ds.take 4) : ℚ) + 1 / 2) ≠ ((digitsVal (ds.take 4) : ℚ)) := by
    intro h
    have h2 : (1 : ℚ) / 2 = 0 := by linarith
    norm_num at h2
  by_cases hcond : 5 ≤ (ds.getD 4 '0').toNat - 48 ∧
      (digitsVal (ds.take 4) = 2013 ∨ digitsVal (ds.take 4) = 2016)
  · exact ⟨⟨fun _ => hcond, fun _ => by rw [hbase true, if_pos hcond]; rfl⟩,
           ⟨fun _ => hcond, fun _ => by rw [hbase false, if_pos hcond]; rfl⟩,
           fun hn => absurd hcond hn⟩
  · refine ⟨⟨fun h => ?_, fun hc => absurd hc hcond⟩,
            ⟨fun h => ?_, fun hc => absurd hc hcond⟩,
            fun _ => ⟨by rw [hbase true, if_neg hcond]; rfl,
                      by rw [hbase false, if_neg hcond]; rfl⟩⟩
    · rw [hbase true, if_neg hcond] at h
      simp only [reduceIte, Except.ok.injEq, MayaVer.str.injEq] at h
      exact (hstr_ne h.symm).elim
    · rw [hbase false, if_neg hcond] at h
      simp only [Bool.false_eq_true, if_false, Except.ok.injEq, MayaVer.num.injEq] at h
      exact (hnum_ne h.symm).elim

/-- Sample Maya install whose `MTypes.h` encodes 2016 sub-release 5. -/
def mayaSampleFS : FS :=
  ⟨["/maya", "/maya/include/maya"],
   [("/maya/include/maya/MTypes.h", ["#define MAYA_API_VERSION 20165"])]⟩

/-- Sample arguments configuring the Maya root. -/
def mayaSampleArgs : Args := [("with-maya", "/maya")]

/-- Witness for claim C3 at API version `20165` (year 2016, sub-release 5). -/
theorem maya_nice_version_dot5_witness :
    mayaVersion mayaSampleFS mayaSampleArgs [] "linux" "x64" true true = .ok (.str "2016.5") ∧
    mayaVersion mayaSampleFS mayaSampleArgs [] "linux" "x64" false true =
      .ok (.num ((2016 : ℚ) + 1 / 2)) := by
  have h := maya_nice_version_dot5 mayaSampleFS mayaSampleArgs [] "linux" "x64" "/maya"
    ["#define MAYA_API_VERSION 20165"] ['2', '0', '1', '6', '5'] rfl (by decide) rfl rfl
    (by decide)
  exact ⟨h.1.mpr (by decide), h.2.1.mpr (by decide)⟩

/-! ### tools/houdini.py -/

/-- The MSVC table `_hou_mscver`. -/
def houMscverTable : List (String × String) :=
  [("15.0", "11.0"), ("15.5", "14.0"), ("16.0", "14.0"), ("16.5", "14.0"), ("17.0", "14.1"),
   ("17.5", "14.1"), ("18.0", "14.1"), ("18.5", "14.1")]

/-- The GCC table `_hou_gccver`. -/
def houGccverTable : List (String × String) :=
  [("17.0", "6"), ("17.5", "6"), ("18.0", "6"), ("18.5", "6")]

/-- Anchored match of `\d+\.\d+\.\d+(\.\d+)?` at the head of the input;
returns the matched characters (group 0). Greedy digit runs followed by a
required literal dot cannot be rescued by backtracking, so maximal-run
matching is exact. -/
def verMatch3 (cs : List Char) : Option (List Char) :=
  let s1 := cs.span Char.isDigit
  if s1.1 = [] then none
  else
    match s1.2 with
    | '.' :: r2 =>
      let s2 := r2.span Char.isDigit
      if s2.1 = [] then none
      else
        match s2.2 with
        | '.' :: r4 =>
          let s3 := r4.span Char.isDigit
          if s3.1 = [] then none
          else
            let base := s1.1 ++ '.' :: s2.1 ++ '.' :: s3.1
            match s3.2 with
            | '.' :: r6 =>
              let s4 := r6.span Char.isDigit
              if s4.1 = [] then some base else some (base ++ '.' :: s4.1)
            | _ => some base
        | _ => none
    | _ => none

/-- `re.search` of the same pattern: the leftmost position where the
anchored match succeeds. -/
def verSearch3 : List Char → Option (List Char)
  | [] => none
  | c :: rest =>
    match verMatch3 (c :: rest) with
    | some m => some m
    | none => verSearch3 rest

/-- The repeated failure idiom of `houdini.GetVersionAndDirectory`: raise
the message when `noexc` is unset, otherwise warn once (deduplicated) and
return the null descriptor. -/
def houFailRes (noexc : Bool) (msg : String) (w : List String) :
    Except String ((Option String × Option String) × List String) :=
  if !noexc then .error msg else .ok ((none, none), warnOnce msg w)

/-- `houdini.GetVersionAndDirectory(noexc)`: a missing `with-houdini`, a
malformed version string, a path without an embedded version, or a resolved
root that is not a directory all fail through `houFailRes`; otherwise the
version and the per-platform root (with `/Resources` appended on darwin)
are returned together with the unchanged warning state. -/
def houGVD (fs : FS) (args : Args) (platform archDir : String) (noexc : Bool)
    (w : List String) : Except String ((Option String × Option String) × List String) :=
  match getArg args "with-houdini" with
  | none => houFailRes noexc "Please set Houdini version or directory using with-houdini=" w
  | some hspec =>
    if !(fs.isdir hspec) then
      let ver := hspec
      if (verMatch3 ver.toList).isNone then
        houFailRes noexc ("Invalid Houdini version format: \"" ++ ver ++ "\"") w
      else
        let hfs :=
          if platform = "win32" then
            if archDir = "x64" then "C:/Program Files/Side Effects Software/Houdini " ++ ver
            else "C:/Program Files (x86)/Side Effects Software/Houdini " ++ ver
          else if platform = "darwin" then
            "/Library/Frameworks/Houdini.framework/Versions/" ++ ver ++ "/Resources"
          else "/opt/hfs" ++ ver
        if !(fs.isdir hfs) then houFailRes noexc ("Invalid Houdini directory: " ++ hfs) w
        else .ok ((some ver, some hfs), w)
    else
      let hfs := hspec
      match verSearch3 hfs.toList with
      | none =>
        houFailRes noexc
          ("Could not figure out houdini version from path \"" ++ hfs ++
           "\". Please provide it using houdini-ver=") w
      | some m =>
        let ver := String.mk m
        let hfs := if platform = "darwin" then hfs ++ "/Resources" else hfs
        if !(fs.isdir hfs) then houFailRes noexc ("Invalid Houdini directory: " ++ hfs) w
        else .ok ((some ver, some hfs), w)

/-- Return shapes of `houdini.Version`: Python `None`, a string, or a
float. -/
inductive HouVer
  | noneV
  | str (s : String)
  | num (q : ℚ)
deriving DecidableEq

/-- `".".join(ver.split(".")[:2])`. -/
def truncate2 (s : String) : String :=
  String.mk (joinDot ((splitOnChar '.' s.toList).take 2))

/-- `houdini.Version(asString, full)`: resolve through
`GetVersionAndDirectory(noexc=True)`; a null resolution yields `""`/`None`;
otherwise the version is truncated to its first two dotted components
whenever `full` is unset or a number is requested, and `float()` is applied
for the numeric form. -/
def houVersion (fs : FS) (args : Args) (platform archDir : String)
    (asString full : Bool) (w : List String) : Except String (HouVer × List String) :=
  match houGVD fs args platform archDir true w with
  | .error e => .error e
  | .ok ((none, _), w1) => .ok ((if asString then .str "" else .noneV), w1)
  | .ok ((some ver, _), w1) =>
    let ver := if !full || !asString then truncate2 ver else ver
    if asString then .ok (.str ver, w1)
    else
      match pyFloat ver with
      | some q => .ok (.num q, w1)
      | none => .error ("ValueError: could not convert string to float: " ++ ver)

/-- `houdini.SetupMscver()`: on win32, when `mscver=` is not already set
(read through `excons.GetArgument`, modelled as the same argument store),
look `Version(full=False)` up in the MSVC table and pre-set `mscver`. -/
def houSetupMscver (fs : FS) (args : Args) (platform archDir : String) (w : List String) :
    Except String Args :=
  if platform = "win32" then
    match getArg args "mscver" with
    | some _ => .ok args
    | none =>
      match houVersion fs args platform archDir true false w with
      | .error e => .error e
      | .ok (v, _) =>
        -- Version(full=False) with the default asString=True is always a string
        let houver := match v with | .str s => s | _ => ""
        match dictGet houMscverTable houver with
        | some m => .ok (setArgument args "mscver" m)
        | none => .ok args
  else .ok args

/-- `houdini.SetupGccver()`: on linux, when `devtoolset=` is not already
set, look `Version(full=False)` up in the GCC table (defaulting to `""`)
and pre-set `devtoolset`. -/
def houSetupGccver (fs : FS) (args : Args) (platform archDir : String) (w : List String) :
    Except String Args :=
  if listIsPrefixB "linux".toList platform.toList then
    match getArg args "devtoolset" with
    | some _ => .ok args
    | none =>
      match houVersion fs args platform archDir true false w with
      | .error e => .error e
      | .ok (v, _) =>
        let houver := match v with | .str s => s | _ => ""
        -- dict.get(houver, "") is never None, so SetArgument always runs
        let gccver := (dictGet houGccverTable houver).getD ""
        .ok (setArgument args "devtoolset" gccver)
  else .ok args

/-- `houdini.SetupCompiler()`: dispatch on the platform. -/
def houSetupCompiler (fs : FS) (args : Args) (platform archDir : String) (w : List String) :
    Except String Args :=
  if platform = "win32" then houSetupMscver fs args platform archDir w
  else houSetupGccver fs args platform archDir w

/-- Claim C6: whichever lookup-table entry would apply, a caller-set
`mscver=` / `devtoolset=` argument is never overridden by the Maya or
Houdini compiler auto-selection steps: each `Setup*` returns the argument
store unchanged. -/
theorem setup_compiler_no_override :
    (∀ (fs : FS) (args : Args) (envv : EnvVars) (platform archDir v : String),
      getArg args "mscver" = some v →
      mayaSetupMscver fs args envv platform archDir = .ok args) ∧
    (∀ (fs : FS) (args : Args) (envv : EnvVars) (platform archDir v : String),
      getArg args "devtoolset" = some v →
      mayaSetupGccver fs args envv platform archDir = .ok args) ∧
    (∀ (fs : FS) (args : Args) (platform archDir v : String) (w : List String),
      getArg args "mscver" = some v →
      houSetupMscver fs args platform archDir w = .ok args) ∧
    (∀ (fs : FS) (args : Args) (platform archDir v : String) (w : List String),
      getArg args "devtoolset" = some v →
      houSetupGccver fs args platform archDir w = .ok args) ∧
    (∀ (fs : FS) (args : Args) (envv : EnvVars) (platform archDir vm vd : String),
      getArg args "mscver" = some vm → getArg args "devtoolset" = some vd →
      mayaSetupCompiler fs args envv platform archDir = .ok args) ∧
    (∀ (fs : FS) (args : Args) (platform archDir vm vd : String) (w : List String),
      getArg args "mscver" = some vm → getArg args "devtoolset" = some vd →
      houSetupCompiler fs args platform archDir w = .ok args) := by
  have hm : ∀ (fs : FS) (args : Args) (envv : EnvVars) (platform archDir v : String),
      getArg args "mscver" = some v →
      mayaSetupMscver fs args envv platform archDir = .ok args := by
    intro fs args envv platform archDir v h
    simp only [mayaSetupMscver, h]
    split <;> rfl
  have hg : ∀ (fs : FS) (args : Args) (envv : EnvVars) (platform archDir v : String),
      getArg args "devtoolset" = some v →
      mayaSetupGccver fs args envv platform archDir = .ok args := by
    intro fs args envv platform archDir v h
    simp only [mayaSetupGccver, h]
    split <;> rfl
  have hhm : ∀ (fs : FS) (args : Args) (platform archDir v : String) (w : List String),
      getArg args "mscver" = some v →
      houSetupMscver fs args platform archDir w = .ok args := by
    intro fs args platform archDir v w h
    simp only [houSetupMscver, h]
    split <;> rfl
  have hhg : ∀ (fs : FS) (args : Args) (platform archDir v : String) (w : List String),
      getArg args "devtoolset" = some v →
      houSetupGccver fs args platform archDir w = .ok args := by
    intro fs args platform archDir v w h
    simp only [houSetupGccver, h]
    split <;> rfl
  refine ⟨hm, hg, hhm, hhg, ?_, ?_⟩
  · intro fs args envv platform archDir vm vd h1 h2
    simp only [mayaSetupCompiler]
    split
    · exact hm fs args envv platform archDir vm h1
    · exact hg fs args envv platform archDir vd h2
  · intro fs args platform archDir vm vd w h1 h2
    simp only [houSetupCompiler]
    split
    · exact hhm fs args platform archDir vm w h1
    · exact hhg fs args platform archDir vd w h2

/-- Witness for claim C6: with `mscver=14.0` and `devtoolset=9` pre-set, all
six auto-selection entry points leave the argument store unchanged on both
a win32 and a linux platform. -/
theorem setup_compiler_no_override_witness :
    mayaSetupMscver ⟨[], []⟩ [("mscver", "14.0"), ("devtoolset", "9")] [] "win32" "x64" =
      .ok [("mscver", "14.0"), ("devtoolset", "9")] ∧
    mayaSetupGccver ⟨[], []⟩ [("mscver", "14.0"), ("devtoolset", "9")] [] "linux2" "x64" =
      .ok [("mscver", "14.0"), ("devtoolset", "9")] ∧
    houSetupMscver ⟨[], []⟩ [("mscver", "14.0"), ("devtoolset", "9")] "win32" "x64" [] =
      .ok [("mscver", "14.0"), ("devtoolset", "9")] ∧
    houSetupGccver ⟨[], []⟩ [("mscver", "14.0"), ("devtoolset", "9")] "linux2" "x64" [] =
      .ok [("mscver", "14.0"), ("devtoolset", "9")] ∧
    mayaSetupCompiler ⟨[], []⟩ [("mscver", "14.0"), ("devtoolset", "9")] [] "linux2" "x64" =
      .ok [("mscver", "14.0"), ("devtoolset", "9")] ∧
    houSetupCompiler ⟨[], []⟩ [("mscver", "14.0"), ("devtoolset", "9")] "win32" "x64" [] =
      .ok [("mscver", "14.0"), ("devtoolset", "9")] :=
  ⟨setup_compiler_no_override.1 _ _ [] _ _ "14.0" rfl,
   setup_compiler_no_override.2.1 _ _ [] _ _ "9" rfl,
   setup_compiler_no_override.2.2.1 _ _ _ _ "14.0" [] rfl,
   setup_compiler_no_override.2.2.2.1 _ _ _ _ "9" [] rfl,
   setup_compiler_no_override.2.2.2.2.1 _ _ [] _ _ "14.0" "9" rfl rfl,
   setup_compiler_no_override.2.2.2.2.2 _ _ _ _ "14.0" "9" [] rfl rfl⟩

theorem houGVD_cases (fs : FS) (args : Args) (platform archDir : String) (w : List String) :
    (∃ msg, houGVD fs args platform archDir false w = .error msg ∧
            houGVD fs args platform archDir true w = .ok ((none, none), warnOnce msg w)) ∨
    (∃ v d, houGVD fs args platform archDir false w = .ok ((some v, some d), w) ∧
            houGVD fs args platform archDir true w = .ok ((some v, some d), w)) := by
  cases h1 : getArg args "with-houdini" with
  | none =>
    exact Or.inl ⟨"Please set Houdini version or directory using with-houdini=",
      by simp [houGVD, h1, houFailRes], by simp [houGVD, h1, houFailRes]⟩
  | some hspec =>
    cases h2 : fs.isdir hspec with
    | false =>
      cases h3 : verMatch3 hspec.toList with
      | none =>
        have h3d : verMatch3 hspec.data = none := h3
        exact Or.inl ⟨"Invalid Houdini version format: \"" ++ hspec ++ "\"",
          by simp [houGVD, String.toList, h1, h2, h3d, houFailRes],
          by simp [houGVD, String.toList, h1, h2, h3d, houFailRes]⟩
      | some m =>
        have h3d : verMatch3 hspec.data = some m := h3
        cases h4 : fs.isdir (if platform = "win32" then
            (if archDir = "x64" then "C:/Program Files/Side Effects Software/Houdini " ++ hspec
             else "C:/Program Files (x86)/Side Effects Software/Houdini " ++ hspec)
          else if platform = "darwin" then
            "/Library/Frameworks/Houdini.framework/Versions/" ++ hspec ++ "/Resources"
          else "/opt/hfs" ++ hspec) with
        | false =>
          refine Or.inl ⟨"Invalid Houdini directory: " ++ (if platform = "win32" then
              (if archDir = "x64" then "C:/Program Files/Side Effects Software/Houdini " ++ hspec
               else "C:/Program Files (x86)/Side Effects Software/Houdini " ++ hspec)
            else if platform = "darwin" then
              "/Library/Frameworks/Houdini.framework/Versions/" ++ hspec ++ "/Resources"
            else "/opt/hfs" ++ hspec), ?_, ?_⟩ <;>
            simp [houGVD, String.toList, h1, h2, h3d, h4, houFailRes]
        | true =>
          refine Or.inr ⟨hspec, (if platform = "win32" then
              (if archDir = "x64" then "C:/Program Files/Side Effects Software/Houdini " ++ hspec
               else "C:/Program Files (x86)/Side Effects Software/Houdini " ++ hspec)
            else if platform = "darwin" then
              "/Library/Frameworks/Houdini.framework/Versions/" ++ hspec ++ "/Resources"
            else "/opt/hfs" ++ hspec), ?_, ?_⟩ <;>
            simp [houGVD, String.toList, h1, h2, h3d, h4]
    | true =>
      cases h3 : verSearch3 hspec.toList with
      | none =>
        have h3d : verSearch3 hspec.data = none := h3
        refine Or.inl ⟨"Could not figure out houdini version from path \"" ++ hspec ++
            "\". Please provide it using houdini-ver=", ?_, ?_⟩ <;>
          simp [houGVD, String.toList, h1, h2, h3d, houFailRes]
      | some m =>
        have h3d : verSearch3 hspec.data = some m := h3
        cases h4 : fs.isdir (if platform = "darwin" then hspec ++ "/Resources" else hspec) with
        | false =>
          refine Or.inl ⟨"Invalid Houdini directory: " ++
              (if platform = "darwin" then hspec ++ "/Resources" else hspec), ?_, ?_⟩ <;>
            simp [houGVD, String.toList, h1, h2, h3d, h4, houFailRes]
        | true =>
          refine Or.inr ⟨String.mk m,
              (if platform = "darwin" then hspec ++ "/Resources" else hspec), ?_, ?_⟩ <;>
            simp [houGVD, String.toList, h1, h2, h3d, h4]

/-- Claim C7: for every input, `GetVersionAndDirectory` with `noexc=False`
either raises or returns a full `(version, directory)` descriptor with the
warning state untouched; it raises a message exactly on those inputs where
the `noexc=True` run emits that message through the deduplicated warn-once
facility and returns the null descriptor `(None, None)` without raising. -/
theorem hou_gvd_noexc_warns (fs : FS) (args : Args) (platform archDir : String)
    (w : List String) :
    ((∃ msg, houGVD fs args platform archDir false w = .error msg) ∨
     (∃ v d, houGVD fs args platform archDir false w = .ok ((some v, some d), w))) ∧
    (∀ msg, houGVD fs args platform archDir false w = .error msg →
      houGVD fs args platform archDir true w = .ok ((none, none), warnOnce msg w)) ∧
    (∀ r, houGVD fs args platform archDir false w = .ok r →
      houGVD fs args platform archDir true w = .ok r) := by
  rcases houGVD_cases fs args platform archDir w with ⟨msg, he, ht⟩ | ⟨v, d, he, ht⟩
  · refine ⟨Or.inl ⟨msg, he⟩, ?_, ?_⟩
    · intro msg2 he2
      rw [he] at he2
      injection he2 with h
      rw [← h]
      exact ht
    · intro r hr
      rw [he] at hr
      exact absurd hr (by simp)
  · refine ⟨Or.inr ⟨v, d, he⟩, ?_, ?_⟩
    · intro msg2 he2
      rw [he] at he2
      exact absurd he2 (by simp)
    · intro r hr
      rw [he] at hr
      injection hr with h
      rw [← h]
      exact ht

/-- Witness for claim C7: with no `with-houdini` configured, the
`noexc=False` run raises and the `noexc=True` run warns once and returns
the null descriptor. -/
theorem hou_gvd_noexc_warns_witness :
    houGVD ⟨[], []⟩ [] "linux" "x64" true [] =
      .ok ((none, none),
        warnOnce "Please set Houdini version or directory using with-houdini=" []) :=
  (hou_gvd_noexc_warns ⟨[], []⟩ [] "linux" "x64" []).2.1
    "Please set Houdini version or directory using with-houdini=" rfl

/-- Claim C9: the numeric form of `houdini.Version` never carries the patch
component — `Version(asString=False, full)` is independent of `full` and is
`float()` of the two-component truncation — and
`Version(asString=True, full=False)` is the `major.minor` string. -/
theorem hou_version_truncates (fs : FS) (args : Args) (platform archDir : String)
    (w : List String) :
    (∀ full, houVersion fs args platform archDir false full w =
       houVersion fs args platform archDir false false w) ∧
    (∀ v d w1, houGVD fs args platform archDir true w = .ok ((some v, some d), w1) →
      houVersion fs args platform archDir true false w = .ok (.str (truncate2 v), w1) ∧
      ∀ full, houVersion fs args platform archDir false full w =
        (match pyFloat (truncate2 v) with
         | some q => .ok (.num q, w1)
         | none => .error ("ValueError: could not convert string to float: " ++ truncate2 v))) := by
  constructor
  · intro full
    cases hres : houGVD fs args platform archDir true w with
    | error e => simp [houVersion, hres]
    | ok r =>
      obtain ⟨⟨vo, vd⟩, w1⟩ := r
      cases vo with
      | none => simp [houVersion, hres]
      | some ver => cases full <;> simp [houVersion, hres]
  · intro v d w1 hres
    constructor
    · simp [houVersion, hres]
    · intro full
      cases full <;> simp [houVersion, hres]

/-- Sample Houdini install for version `18.5.351`. -/
def houSampleFS : FS := ⟨["/opt/hfs18.5.351"], []⟩

/-- Sample arguments configuring the Houdini version. -/
def houSampleArgs : Args := [("with-houdini", "18.5.351")]

/-- Witness for claim C9 at version `18.5.351`: the string form with
`full=False` is `"18.5"` and the numeric form is `18.5` even with
`full=True`. -/
theorem hou_version_truncates_witness :
    houVersion houSampleFS houSampleArgs "linux" "x64" true false [] =
      .ok (.str "18.5", []) ∧
    houVersion houSampleFS houSampleArgs "linux" "x64" false true [] =
      .ok (.num (37 / 2), []) := by
  have h := (hou_version_truncates houSampleFS houSampleArgs "linux" "x64" []).2
    "18.5.351" "/opt/hfs18.5.351" [] rfl
  refine ⟨h.1, ?_⟩
  rw [h.2 true]
  simp only [pyFloat, truncate2, splitOnChar, joinDot, digitsVal, String.toList,
    Char.reduceEq, reduceIte, List.foldl, List.length_cons, List.length_nil]
  rw [if_pos (by decide : ['1', '8'] ≠ ([] : List Char) ∧ ['5'] ≠ ([] : List Char) ∧
    ['1', '8'].all Char.isDigit = true ∧ ['5'].all Char.isDigit = true)]
  rw [show '1'.toNat = 49 from rfl, show '8'.toNat = 56 from rfl, show '5'.toNat = 53 from rfl]
  norm_num

/-! ### tools/python.py -/

/-- Failure modes of the python tool: `sys.exit(code)` or a raised
exception. -/
inductive PyFail
  | exit (code : Nat)
  | exc (msg : String)
deriving DecidableEq

/-- The resolved runtime descriptor `(ver, incdir, libdir-or-framework-dir,
lib-or-framework-name)`; `libdir = none` is the darwin "directly linking a
version-specific framework file" case. -/
structure PySpec where
  ver : String
  incdir : String
  libdir : Option String
  lib : String
deriving DecidableEq

/-- The process-lifetime memoization table `_specCache` (`None` is the
cached unresolvable sentinel). -/
abbrev PyCache := List (String × Option PySpec)

/-- The host system as the python tool observes it: platform, filesystem,
interpreter prefixes, `distutils.sysconfig` configuration values, and the
three subprocess/glob version-sniffing helpers (`_GetPythonVersionOSX/WIN/
UNIX`), whose internals shell out and are embedded as oracles; every call
to one of them, and every `os.path.isdir`/`isfile`, is logged as a probe. -/
structure PySys where
  platform : String
  fs : FS
  execPrefix : String
  virtualEnv : Bool
  basePrefix : String
  bindir : String
  pythonInc : String
  libdirCfg : String
  ldversion : String
  pythonVersion : String
  pyEnableShared : Bool
  prefixDir : String
  pythonFramework : String
  pythonFrameworkPrefix : String
  cflags : String
  linkforshared : String
  build64 : Bool
  osxVer : String → Option String
  winVer : String → Option String
  unixVer : String → Option String

/-- `re.match(r"\d+\.\d+", s)`: digits, a dot, digits, anchored at the
start. -/
def matchDD (s : String) : Bool :=
  let sp := s.toList.span Char.isDigit
  match sp.2 with
  | '.' :: r2 => !sp.1.isEmpty && !(r2.takeWhile Char.isDigit).isEmpty
  | _ => false

/-- `posixpath.dirname`. -/
def dirname (s : String) : String :=
  let cs := s.toList
  let pre := (cs.reverse.dropWhile (fun c => !(c = '/'))).reverse
  if pre ≠ [] ∧ ¬(pre.all (fun c => c = '/')) then
    String.mk ((pre.reverse.dropWhile (fun c => c = '/')).reverse)
  else String.mk pre

/-- `posixpath.basename`. -/
def basename (s : String) : String :=
  String.mk ((s.toList.reverse.takeWhile (fun c => !(c = '/'))).reverse)

/-- `os.path.splitext(s)[0]`: cut at the last dot, unless only dots precede
it within the last path component. -/
def splitextRoot (s : String) : String :=
  let cs := s.toList
  let n := cs.length
  match cs.reverse.findIdx? (fun c => c = '.') with
  | none => s
  | some k =>
    let dotIndex : Int := (n : Int) - 1 - k
    let sepIndex : Int :=
      match cs.reverse.findIdx? (fun c => c = '/') with
      | none => -1
      | some j => (n : Int) - 1 - j
    if dotIndex > sepIndex ∧
        ((cs.drop (sepIndex + 1).toNat).take (dotIndex - sepIndex - 1).toNat).any
          (fun c => !(c = '.')) then
      String.mk (cs.take dotIndex.toNat)
    else s

/-- `re.sub(r"/Versions/.*$", "", s)`: cut at the first occurrence of
`/Versions/`. -/
def cutAtVersions : List Char → List Char
  | [] => []
  | c :: rest =>
    if listIsPrefixB "/Versions/".toList (c :: rest) then []
    else c :: cutAtVersions rest

/-- Remove a suffix when present. -/
def dropSuffixIf (suf l : List Char) : Option (List Char) :=
  if listIsPrefixB suf.reverse l.reverse then some (l.take (l.length - suf.length))
  else none

/-- `re.search(r"/([^/]+)\.framework/Versions/([^/]+)/?$", s)`: the
end-anchored framework pattern; returns `(framework name, version)`. The
greedy `[^/]+` keeps the longest stem of a component ending in
`.framework`. -/
def fwMatch (s : String) : Option (String × String) :=
  let cs := s.toList
  let cs := if cs.getLast? = some '/' then cs.dropLast else cs
  let parts := splitOnChar '/' cs
  if parts.length < 4 then none
  else
    match parts.reverse with
    | verpart :: versionsLit :: fwnpart :: _ =>
      if verpart ≠ [] ∧ versionsLit = "Versions".toList then
        match dropSuffixIf ".framework".toList fwnpart with
        | some stem => if stem ≠ [] then some (String.mk stem, String.mk verpart) else none
        | none => none
      else none
    | _ => none

/-- The `for isd in ("include/python<ver>", "Headers")` include-directory
probe loop (first existing wins), with its probe log. -/
def darwinIncLoop (sys : PySys) (base : String) : List String → Option String × List String
  | [] => (none, [])
  | isd :: rest =>
    let idir := base ++ "/" ++ isd
    if sys.fs.isdir idir then (some idir, ["isdir:" ++ idir])
    else
      let r := darwinIncLoop sys base rest
      (r.1, ["isdir:" ++ idir] ++ r.2)

/-- The darwin stock-location loop of `_GetPythonSpec` over the two
framework search paths (`break` on the first success; a framework whose
current version matches links the framework directory, otherwise the
version-pinned framework file is linked directly). -/
def darwinStockLoop (sys : PySys) (ver : String) : List String → Option PySpec × List String
  | [] => (none, [])
  | searchPath :: rest =>
    let pythonPath := searchPath ++ "/Python.framework/Versions/" ++ ver
    let p1 := ["isdir:" ++ pythonPath]
    if sys.fs.isdir pythonPath then
      match darwinIncLoop sys pythonPath ["include/python" ++ ver, "Headers"] with
      | (some incdir, p2) =>
        let fwprobe := searchPath ++ "/Python.framework"
        let p3 := ["subprocess-osx-version:" ++ fwprobe]
        if sys.osxVer fwprobe = some ver then
          (some ⟨ver, incdir, some searchPath, "Python"⟩, p1 ++ p2 ++ p3)
        else (some ⟨ver, incdir, none, pythonPath ++ "/Python"⟩, p1 ++ p2 ++ p3)
      | (none, p2) =>
        let r := darwinStockLoop sys ver rest
        (r.1, p1 ++ p2 ++ r.2)
    else
      let r := darwinStockLoop sys ver rest
      (r.1, p1 ++ r.2)

/-- The "check setup validity" block (lines 212-243): existence checks with
Python's short-circuit probing; an invalid candidate aborts the build
(`sys.exit(1)`). -/
def pySpecValidity (sys : PySys) (sp : PySpec) : Except PyFail (Option PySpec) × List String :=
  if sys.platform = "darwin" then
    match sp.libdir with
    | none =>
      if !(sys.fs.isdir sp.incdir) then (.error (.exit 1), ["isdir:" ++ sp.incdir])
      else if !(sys.fs.isfile sp.lib) then
        (.error (.exit 1), ["isdir:" ++ sp.incdir, "isfile:" ++ sp.lib])
      else (.ok (some sp), ["isdir:" ++ sp.incdir, "isfile:" ++ sp.lib])
    | some fwdir =>
      if !(sys.fs.isdir sp.incdir) then (.error (.exit 1), ["isdir:" ++ sp.incdir])
      else if !(sys.fs.isdir fwdir) then
        (.error (.exit 1), ["isdir:" ++ sp.incdir, "isdir:" ++ fwdir])
      else (.ok (some sp), ["isdir:" ++ sp.incdir, "isdir:" ++ fwdir])
  else
    let libdir := sp.libdir.getD ""
    if !(sys.fs.isdir sp.incdir) then (.error (.exit 1), ["isdir:" ++ sp.incdir])
    else if !(sys.fs.isdir libdir) then
      (.error (.exit 1), ["isdir:" ++ sp.incdir, "isdir:" ++ libdir])
    else if sys.platform = "win32" then
      let libfile := libdir ++ "/" ++ sp.lib ++ ".lib"
      if !(sys.fs.isfile libfile) then
        (.error (.exit 1), ["isdir:" ++ sp.incdir, "isdir:" ++ libdir, "isfile:" ++ libfile])
      else (.ok (some sp), ["isdir:" ++ sp.incdir, "isdir:" ++ libdir, "isfile:" ++ libfile])
    else
      if !sys.pyEnableShared then
        (.error (.exit 1), ["isdir:" ++ sp.incdir, "isdir:" ++ libdir])
      else (.ok (some sp), ["isdir:" ++ sp.incdir, "isdir:" ++ libdir])

/-- The body of `_GetPythonSpec` past the cache lookup: the version-string
and explicit-path resolution branches per platform, the current-version
fallback for a stock version miss (which terminates the build on a version
mismatch), the `sys.exit(1)` on an unresolvable path spec, and the validity
check. The result pairs the resolved candidate with the probe log. -/
def pySpecBody (sys : PySys) (s0 : String) : Except PyFail (Option PySpec) × List String :=
  let plat := sys.platform
  let resolved : Except PyFail (Option PySpec) × List String :=
    if matchDD s0 then
      let ver := s0
      let stock : Option PySpec × List String :=
        if plat = "darwin" then
          darwinStockLoop sys ver ["/System/Library/Frameworks", "/Library/Frameworks"]
        else if plat = "win32" then
          let pythonPath := if sys.virtualEnv then sys.basePrefix else sys.execPrefix
          if sys.fs.isdir pythonPath then
            (some ⟨ver, pythonPath ++ "/include", some (pythonPath ++ "/libs"),
              "python" ++ dropAllChar '.' ver⟩, ["isdir:" ++ pythonPath])
          else (none, ["isdir:" ++ pythonPath])
        else
          -- spec = (ver, BINDIR) is a nonempty tuple, hence truthy; it is
          -- immediately refined from the sysconfig values
          (some ⟨ver, sys.pythonInc, some sys.libdirCfg, "python" ++ sys.ldversion⟩, [])
      match stock with
      | (none, ps) =>
        if sys.pythonVersion ≠ ver then (.error (.exit 1), ps) else (.ok none, ps)
      | (some sp, ps) => (.ok (some sp), ps)
    else
      if plat = "darwin" then
        -- specString[-1] on an empty string raises IndexError
        if s0 = "" then (.error (.exc "IndexError: string index out of range"), [])
        else
          let specString :=
            if s0.toList.getLast? = some '/' then String.mk s0.toList.dropLast else s0
          match fwMatch specString with
          | some (fwn, ver) =>
            let fw := specString ++ "/" ++ fwn
            let fwh0 := specString ++ "/Headers"
            let pA := ["isdir:" ++ fwh0]
            let fwh := if sys.fs.isdir fwh0 then fwh0 else specString ++ "/include/python" ++ ver
            if !(sys.fs.isfile fw) then
              -- the error report re-probes fwh and fw (lines 166-169)
              (.error (.exit 1), pA ++ ["isfile:" ++ fw, "isfile:" ++ fwh, "isfile:" ++ fw])
            else if !(sys.fs.isdir fwh) then
              (.error (.exit 1),
               pA ++ ["isfile:" ++ fw, "isdir:" ++ fwh, "isfile:" ++ fwh, "isfile:" ++ fw])
            else
              let pB := pA ++ ["isfile:" ++ fw, "isdir:" ++ fwh]
              let fwd := String.mk (cutAtVersions specString.toList)
              let pC := pB ++ ["subprocess-osx-version:" ++ fwd]
              if sys.osxVer fwd = some ver then
                (.ok (some ⟨ver, fwh, some (dirname fwd), fwn⟩), pC)
              else (.ok (some ⟨ver, fwh, none, fw⟩), pC)
          | none =>
            let pA := ["subprocess-osx-version:" ++ specString]
            match sys.osxVer specString with
            | some ver =>
              let d := dirname specString
              let n := splitextRoot (basename specString)
              match darwinIncLoop sys (specString ++ "/Versions/" ++ ver)
                  ["include/python" ++ ver, "Headers"] with
              | (some incdir, pB) => (.ok (some ⟨ver, incdir, some d, n⟩), pA ++ pB)
              | (none, pB) => (.error (.exit 1), pA ++ pB)
            | none => (.error (.exit 1), pA)
      else if plat = "win32" then
        let ps := ["glob-win-pydll:" ++ s0]
        match sys.winVer s0 with
        | some ver =>
          let d := dirname s0
          (.ok (some ⟨ver, d ++ "/include", some (d ++ "/libs"),
            "python" ++ dropAllChar '.' ver⟩), ps)
        | none => (.error (.exit 1), ps)
      else
        let ps := ["subprocess-ldd:" ++ s0]
        match sys.unixVer s0 with
        | some ver =>
          let d := dirname s0
          if basename d = "bin" then
            let d2 := dirname d
            (.ok (some ⟨ver, d2 ++ "/include/python" ++ ver,
              some (d2 ++ "/" ++ (if sys.build64 then "lib64" else "lib")),
              "python" ++ ver⟩), ps)
          else (.error (.exit 1), ps)
        | none => (.error (.exit 1), ps)
  match resolved with
  | (.error e, ps) => (.error e, ps)
  | (.ok none, ps) => (.ok none, ps)
  | (.ok (some sp), ps) =>
    match pySpecValidity sys sp with
    | (r, ps2) => (r, ps ++ ps2)

/-- `_GetPythonSpec(specString)`: the cache hit returns immediately with no
probes; otherwise the body runs and every normal return is cached (also the
`None` unresolvable sentinel). -/
def pyGetSpec (sys : PySys) (cache : PyCache) (s : String) :
    Except PyFail (Option PySpec × PyCache) × List String :=
  match dictGet cache s with
  | some r => (.ok (r, cache), [])
  | none =>
    match pySpecBody sys s with
    | (.ok spec, ps) => (.ok (spec, dictSet cache s spec), ps)
    | (.error e, ps) => (.error e, ps)

/-- `python.Version()`: the resolved spec's version, or the running
interpreter's version when nothing (or nothing resolvable) was
requested. -/
def pyVersion (sys : PySys) (args : Args) (cache : PyCache) :
    Except PyFail (String × PyCache) × List String :=
  match getArg args "with-python" with
  | some po =>
    match pyGetSpec sys cache po with
    | (.ok (some sp, c), ps) => (.ok (sp.ver, c), ps)
    | (.ok (none, c), ps) => (.ok (sys.pythonVersion, c), ps)
    | (.error e, ps) => (.error e, ps)
  | none => (.ok (sys.pythonVersion, cache), [])

/-- The default branch of `python.Require` (lines 286-311): configure
against the interpreter this build runs on. -/
def pyRequireDefault (sys : PySys) (ignoreLinkFlags : Bool) (e : Env) : Env × List String :=
  let pyver := sys.pythonVersion
  let e := { e with ccFlags := e.ccFlags ++ " -DPY_VER=" ++ pyver,
                    cppPath := e.cppPath ++ [sys.pythonInc] }
  if sys.pythonFramework ≠ "" then
    if !ignoreLinkFlags then
      let fwdir := sys.pythonFrameworkPrefix
      let fwname := sys.pythonFramework
      let probearg := fwdir ++ "/" ++ fwname ++ ".framework"
      if !(sys.osxVer probearg = some pyver) then
        ({ e with linkFlags := e.linkFlags ++ " " ++ fwdir ++ "/" ++ fwname ++
            ".framework/Versions/" ++ pyver ++ "/" ++ fwname },
         ["subprocess-osx-version:" ++ probearg])
      else
        ({ e with linkFlags := e.linkFlags ++ " -F" ++ fwdir ++ " -framework " ++ fwname },
         ["subprocess-osx-version:" ++ probearg])
    else (e, [])
  else if sys.platform = "win32" then
    ({ e with libPath := e.libPath ++ [sys.prefixDir ++ "\\libs"],
              libs := e.libs ++ ["python" ++ dropAllChar '.' pyver] }, [])
  else
    let pyver2 := sys.ldversion
    let e := { e with ccFlags := e.ccFlags ++ " " ++ sys.cflags }
    if !ignoreLinkFlags then
      ({ e with linkFlags := e.linkFlags ++ " " ++ sys.linkforshared,
                libs := e.libs ++ ["python" ++ pyver2] }, [])
    else (e, [])

/-- `python.Require(e, ignoreLinkFlags)`: a resolved `with-python` spec
appends `-DPY_VER`, the include dir and (unless suppressed) the link
settings; otherwise the defaults of the running interpreter apply. -/
def pyRequire (sys : PySys) (args : Args) (cache : PyCache) (ignoreLinkFlags : Bool)
    (e : Env) : Except PyFail (Env × PyCache) × List String :=
  match getArg args "with-python" with
  | some po =>
    match pyGetSpec sys cache po with
    | (.error err, ps) => (.error err, ps)
    | (.ok (some sp, c), ps) =>
      let e := { e with ccFlags := e.ccFlags ++ " -DPY_VER=" ++ sp.ver,
                        cppPath := e.cppPath ++ [sp.incdir] }
      if !ignoreLinkFlags then
        if sys.platform = "darwin" then
          match sp.libdir with
          | some libdir =>
            (.ok ({ e with
              linkFlags := e.linkFlags ++ " -F" ++ libdir ++ " -framework " ++ sp.lib }, c), ps)
          | none => (.ok ({ e with linkFlags := e.linkFlags ++ " " ++ sp.lib }, c), ps)
        else
          (.ok ({ e with libPath := e.libPath ++ [sp.libdir.getD ""],
                         libs := e.libs ++ [sp.lib] }, c), ps)
      else (.ok (e, c), ps)
    | (.ok (none, c), ps) =>
      let r := pyRequireDefault sys ignoreLinkFlags e
      (.ok (r.1, c), ps ++ r.2)
  | none =>
    let r := pyRequireDefault sys ignoreLinkFlags e
    (.ok (r.1, cache), r.2)

/-- `" ".join(...)`. -/
def joinSpace : List String → String
  | [] => ""
  | [x] => x
  | x :: y :: rest => x ++ " " ++ joinSpace (y :: rest)

/-- `"".join(" --directive %s=%s" % (k, v) for each directive)`. -/
def dirFlags : List (String × String) → String
  | [] => ""
  | kv :: rest => " --directive " ++ kv.1 ++ "=" ++ kv.2 ++ dirFlags rest

/-- `"".join(" -E %s=%s" % (k, v) for each compile-time constant)`. -/
def cteFlags : List (String × String) → String
  | [] => ""
  | kv :: rest => " -E " ++ kv.1 ++ "=" ++ kv.2 ++ cteFlags rest

/-- The build step `CythonGenerate` registers: declared outputs, input and
the translator command line. -/
structure CGResult where
  targets : List String
  source : String
  cmd : String
deriving DecidableEq

/-- `python.CythonGenerate(e, pyx, h, c, incdirs, cpp, cte, directives)`:
forces `directives["language_level"]` to 2 below Python 3 and to 3
otherwise (overwriting any caller value), then — unless no cython
translator was located (`_cython`, passed here as an argument) — derives
the default header/source outputs from `pyx` and assembles the command
line. `float(Version())` can raise; `Version()` may consult the spec
cache. (The `e.Clone()` PATH/PYTHONPATH plumbing has no effect on the
declared command.) -/
def cythonGenerate (sys : PySys) (args : Args) (cache : PyCache) (cython : String)
    (pyx : String) (h c : Option String) (incdirs : List String) (cpp : Bool)
    (cte directives : List (String × String)) :
    Except PyFail (Option CGResult × PyCache) × List String :=
  match pyVersion sys args cache with
  | (.error e, ps) => (.error e, ps)
  | (.ok (vs, cache1), ps) =>
    match pyFloat vs with
    | none => (.error (.exc ("ValueError: could not convert string to float: " ++ vs)), ps)
    | some q =>
      let directives :=
        if q < 3 then dictSet directives "language_level" "2"
        else dictSet directives "language_level" "3"
      if cython = "" then (.ok (none, cache1), ps)
      else
        let hOut := match h with | some hh => hh | none => splitextRoot pyx ++ ".h"
        let cOut := match c with
          | some cc => cc
          | none => splitextRoot pyx ++ (if cpp then ".cpp" else ".c")
        let cmd := cython ++ " " ++ joinSpace (incdirs.map (fun x => "-I " ++ x)) ++
          (if cpp then " --cplus" else "") ++ cteFlags cte ++ dirFlags directives ++
          " --embed-positions -o $TARGET $SOURCE"
        (.ok (some ⟨[cOut, hOut], pyx, cmd⟩, cache1), ps)

instance {ε α : Type} [DecidableEq ε] [DecidableEq α] : DecidableEq (Except ε α) := fun x y =>
  match x, y with
  | .ok a, .ok b =>
    if h : a = b then .isTrue (by rw [h])
    else .isFalse (by intro he; injection he; contradiction)
  | .error a, .error b =>
    if h : a = b then .isTrue (by rw [h])
    else .isFalse (by intro he; injection he; contradiction)
  | .ok _, .error _ => .isFalse (by intro he; injection he)
  | .error _, .ok _ => .isFalse (by intro he; injection he)

theorem dictGet_dictSet {α : Type} :
    ∀ (d : List (String × α)) (k : String) (v : α), dictGet (dictSet d k v) k = some v
  | [], k, v => by simp [dictGet, dictSet]
  | (k', v') :: t, k, v => by
    by_cases h : k' = k
    · simp [dictGet, dictSet, h]
    · simp only [dictSet, if_neg h, dictGet, if_neg h]
      exact dictGet_dictSet t k v

/-- Claim C5: `_GetPythonSpec` memoizes — a cache hit returns the cached
descriptor (or the cached unresolvable sentinel) immediately with an empty
probe log, and any call that returns normally leaves a cache on which the
repeated call with the identical specification string returns the same
result with no filesystem or subprocess probes. -/
theorem py_spec_cache_memoizes :
    (∀ (sys : PySys) (cache : PyCache) (s : String) (r : Option PySpec),
      dictGet cache s = some r →
      pyGetSpec sys cache s = (.ok (r, cache), [])) ∧
    (∀ (sys : PySys) (cache : PyCache) (s : String) (r : Option PySpec) (c : PyCache)
        (ps : List String),
      pyGetSpec sys cache s = (.ok (r, c), ps) →
      pyGetSpec sys c s = (.ok (r, c), [])) := by
  have h1 : ∀ (sys : PySys) (cache : PyCache) (s : String) (r : Option PySpec),
      dictGet cache s = some r → pyGetSpec sys cache s = (.ok (r, cache), []) := by
    intro sys cache s r h
    simp [pyGetSpec, h]
  refine ⟨h1, ?_⟩
  intro sys cache s r c ps h
  cases hc : dictGet cache s with
  | some r0 =>
    rw [h1 sys cache s r0 hc] at h
    obtain ⟨h2, -⟩ := Prod.mk.injEq .. ▸ h
    injection h2 with h3
    obtain ⟨hr, hcache⟩ := Prod.mk.injEq .. ▸ h3
    rw [← hr, ← hcache]
    exact h1 sys cache s r0 hc
  | none =>
    simp only [pyGetSpec, hc] at h
    cases hb : pySpecBody sys s with
    | mk res pr =>
      rw [hb] at h
      cases res with
      | error e => simp at h
      | ok spec =>
        simp only at h
        obtain ⟨h2, -⟩ := Prod.mk.injEq .. ▸ h
        injection h2 with h3
        obtain ⟨hr, hcache⟩ := Prod.mk.injEq .. ▸ h3
        rw [← hr, ← hcache]
        exact h1 sys (dictSet cache s spec) s spec (dictGet_dictSet cache s spec)

/-- Sample posix host whose spec `"9.9"` resolves against the sysconfig
values. -/
def pySampleSys : PySys := {
  platform := "posix"
  fs := ⟨["/usr/include/python9.9", "/usr/lib", "/opt/foo"], []⟩
  execPrefix := "/usr", virtualEnv := false, basePrefix := "/usr"
  bindir := "/usr/bin", pythonInc := "/usr/include/python9.9"
  libdirCfg := "/usr/lib", ldversion := "9.9", pythonVersion := "9.9"
  pyEnableShared := true, prefixDir := "C:\\Python99"
  pythonFramework := "", pythonFrameworkPrefix := ""
  cflags := "-g", linkforshared := "-Xlinker -export-dynamic", build64 := true
  osxVer := fun _ => none, winVer := fun _ => none, unixVer := fun _ => none }

/-- Witness for claim C5: after the first resolution of `"9.9"` (two
filesystem probes), the second call returns the cached descriptor with an
empty probe log. -/
theorem py_spec_cache_memoizes_witness :
    pyGetSpec pySampleSys
      [("9.9", some ⟨"9.9", "/usr/include/python9.9", some "/usr/lib", "python9.9"⟩)] "9.9" =
    (.ok (some ⟨"9.9", "/usr/include/python9.9", some "/usr/lib", "python9.9"⟩,
      [("9.9", some ⟨"9.9", "/usr/include/python9.9", some "/usr/lib", "python9.9"⟩)]), []) :=
  py_spec_cache_memoizes.2 pySampleSys [] "9.9"
    (some ⟨"9.9", "/usr/include/python9.9", some "/usr/lib", "python9.9"⟩)
    [("9.9", some ⟨"9.9", "/usr/include/python9.9", some "/usr/lib", "python9.9"⟩)]
    ["isdir:/usr/include/python9.9", "isdir:/usr/lib"] rfl

/-- Counterexample for claim C4: `"/opt/foo"` is an existing directory with
no python include/lib structure, yet `_GetPythonSpec` terminates the build
(`sys.exit(1)`) instead of returning a null descriptor — the resolver has
no "no warn" mode. -/
theorem py_dir_spec_exits_counterexample :
    pySampleSys.fs.isdir "/opt/foo" = true ∧
    pyGetSpec pySampleSys [] "/opt/foo" = (.error (.exit 1), ["subprocess-ldd:/opt/foo"]) ∧
    ∀ c ps, pyGetSpec pySampleSys [] "/opt/foo" ≠ (.ok (none, c), ps) := by
  refine ⟨rfl, rfl, ?_⟩
  intro c ps h
  rw [show pyGetSpec pySampleSys [] "/opt/foo" =
    (.error (.exit 1), ["subprocess-ldd:/opt/foo"]) from rfl] at h
  simp at h

/-- Claim C4 (amended): on a non-darwin, non-win32 platform, a
specification string that does not look like a dotted version and on which
the `ldd` version sniff finds no libpython — in particular a directory with
no valid include/lib structure — makes `_GetPythonSpec` terminate the
process via `sys.exit(1)` after its diagnostic; it never returns (so no
null descriptor is produced and no exception escapes). -/
theorem py_dir_spec_exits (sys : PySys) (cache : PyCache) (s : String)
    (hplat1 : ¬sys.platform = "darwin") (hplat2 : ¬sys.platform = "win32")
    (hdd : matchDD s = false) (hcache : dictGet cache s = none)
    (hldd : sys.unixVer s = none) :
    pyGetSpec sys cache s = (.error (.exit 1), ["subprocess-ldd:" ++ s]) := by
  simp only [pyGetSpec, hcache, pySpecBody, hdd, hplat1, hplat2, hldd, if_neg, if_false,
    Bool.false_eq_true, reduceIte]

/-- Witness for the amended claim C4 at the concrete directory input. -/
theorem py_dir_spec_exits_witness :
    pyGetSpec pySampleSys [] "/opt/foo" = (.error (.exit 1), ["subprocess-ldd:/opt/foo"]) :=
  py_dir_spec_exits pySampleSys [] "/opt/foo" (by decide) (by decide) rfl rfl rfl

theorem dictSet_dictSet {α : Type} :
    ∀ (d : List (String × α)) (k : String) (v u : α),
      dictSet (dictSet d k v) k u = dictSet d k u
  | [], k, v, u => by simp [dictSet]
  | (k', v') :: t, k, v, u => by
    by_cases h : k' = k
    · simp [dictSet, h]
    · simp only [dictSet, if_neg h]
      rw [dictSet_dictSet t k v u]

theorem dictSet_split {α : Type} :
    ∀ (d : List (String × α)) (k : String) (v : α),
      ∃ l1 l2, dictSet d k v = l1 ++ (k, v) :: l2
  | [], k, v => ⟨[], [], rfl⟩
  | (k', v') :: t, k, v => by
    by_cases h : k' = k
    · exact ⟨[], t, by simp [dictSet, h]⟩
    · obtain ⟨l1, l2, hs⟩ := dictSet_split t k v
      exact ⟨(k', v') :: l1, l2, by simp [dictSet, h, hs]⟩

theorem dirFlags_append :
    ∀ l1 l2 : List (String × String), dirFlags (l1 ++ l2) = dirFlags l1 ++ dirFlags l2
  | [], l2 => by simp [dirFlags]
  | kv :: t, l2 => by
    simp only [List.cons_append, dirFlags, String.append_assoc]
    exact congrArg (fun x => " --directive " ++ (kv.1 ++ ("=" ++ (kv.2 ++ x))))
      (dirFlags_append t l2)

theorem listIsPrefixB_append_self :
    ∀ l rest : List Char, listIsPrefixB l (l ++ rest) = true
  | [], _ => rfl
  | c :: cs, rest => by simp [listIsPrefixB, listIsPrefixB_append_self cs rest]

theorem listHasInfix_mid :
    ∀ pre sub post : List Char, listHasInfix sub (pre ++ sub ++ post) = true
  | [], sub, post => by
    cases sub with
    | nil =>
      cases post with
      | nil => rfl
      | cons c r => simp [listHasInfix, listIsPrefixB]
    | cons c cs =>
      have h1 := listIsPrefixB_append_self (c :: cs) post
      simp only [List.nil_append, List.cons_append] at h1 ⊢
      simp [listHasInfix, h1]
  | p :: pre', sub, post => by
    have hIH := listHasInfix_mid pre' sub post
    simp only [List.cons_append, List.append_assoc] at hIH ⊢
    simp only [listHasInfix]
    rw [hIH, Bool.or_true]

theorem cmd_contains_flag (pre : String) (l1 l2 : List (String × String)) (k v post : String) :
    listHasInfix (" --directive " ++ k ++ "=" ++ v).toList
      (pre ++ dirFlags (l1 ++ (k, v) :: l2) ++ post).toList = true := by
  have hsplit : (pre ++ dirFlags (l1 ++ (k, v) :: l2) ++ post).toList =
      (pre ++ dirFlags l1).toList ++ (" --directive " ++ k ++ "=" ++ v).toList ++
      (dirFlags l2 ++ post).toList := by
    simp [dirFlags_append, dirFlags, string_toList_append, List.append_assoc]
  rw [hsplit]
  exact listHasInfix_mid _ _ _

/-- Claim C10: `CythonGenerate` overwrites the caller's `language_level`
directive with 2 below Python 3 and 3 otherwise, so the generated command
always carries a `--directive language_level` flag determined by the
runtime version, and the value the caller passed for that key cannot
influence the result. -/
theorem cython_forces_language_level
    (sys : PySys) (args : Args) (cache : PyCache) (cython pyx : String)
    (h c : Option String) (incdirs : List String) (cpp : Bool)
    (cte directives : List (String × String)) (vs : String) (c1 : PyCache)
    (ps : List String) (q : ℚ)
    (hver : pyVersion sys args cache = (.ok (vs, c1), ps))
    (hfloat : pyFloat vs = some q)
    (hcy : ¬cython = "") :
    (∃ r, cythonGenerate sys args cache cython pyx h c incdirs cpp cte directives =
        (.ok (some r, c1), ps) ∧
      listHasInfix (" --directive language_level=" ++ (if q < 3 then "2" else "3")).toList
        r.cmd.toList = true) ∧
    (∀ v w, cythonGenerate sys args cache cython pyx h c incdirs cpp cte
        (dictSet directives "language_level" v) =
      cythonGenerate sys args cache cython pyx h c incdirs cpp cte
        (dictSet directives "language_level" w)) := by
  constructor
  · by_cases hq : q < 3
    · obtain ⟨l1, l2, hsp⟩ := dictSet_split directives "language_level" "2"
      simp only [cythonGenerate, hver, hfloat, if_neg hcy, if_pos hq]
      refine ⟨_, rfl, ?_⟩
      rw [hsp]
      exact cmd_contains_flag
        (cython ++ " " ++ joinSpace (incdirs.map (fun x => "-I " ++ x)) ++
          (if cpp then " --cplus" else "") ++ cteFlags cte) l1 l2 "language_level" "2"
        " --embed-positions -o $TARGET $SOURCE"
    · obtain ⟨l1, l2, hsp⟩ := dictSet_split directives "language_level" "3"
      simp only [cythonGenerate, hver, hfloat, if_neg hcy, if_neg hq]
      refine ⟨_, rfl, ?_⟩
      rw [hsp]
      exact cmd_contains_flag
        (cython ++ " " ++ joinSpace (incdirs.map (fun x => "-I " ++ x)) ++
          (if cpp then " --cplus" else "") ++ cteFlags cte) l1 l2 "language_level" "3"
        " --embed-positions -o $TARGET $SOURCE"
  · intro v w
    simp only [cythonGenerate, dictSet_dictSet]

/-- Witness for claim C10: on a Python-9.9 host a caller-supplied
`language_level=7` is overwritten and the command carries
`--directive language_level=3`. -/
theorem cython_forces_language_level_witness :
    ∃ r, cythonGenerate pySampleSys [] [] "cython" "mod.pyx" none none [] false []
        [("language_level", "7")] = (.ok (some r, []), []) ∧
      listHasInfix " --directive language_level=3".toList r.cmd.toList = true := by
  have hf : pyFloat "9.9" = some ((99 : ℚ) / 10) := by
    simp only [pyFloat, String.toList, splitOnChar, Char.reduceEq, reduceIte]
    rw [if_pos (by decide : ['9'] ≠ ([] : List Char) ∧ ['9'] ≠ ([] : List Char) ∧
      ['9'].all Char.isDigit = true ∧ ['9'].all Char.isDigit = true)]
    rw [show digitsVal ['9'] = 9 from rfl, show (['9'] : List Char).length = 1 from rfl]
    norm_num
  have h := (cython_forces_language_level pySampleSys [] [] "cython" "mod.pyx" none none []
    false [] [("language_level", "7")] "9.9" [] [] ((99 : ℚ) / 10) rfl hf (by decide)).1
  obtain ⟨r, hr, hinf⟩ := h
  refine ⟨r, hr, ?_⟩
  rwa [if_neg (by norm_num : ¬((99 : ℚ) / 10) < 3)] at hinf

/-- Counterexample for claim C2: with nothing configured at all, the Arnold
`Require` still appends its fixed link library `ai`, and the Python
`Require` fallback appends the running interpreter's library — so "no
SDK-specific library names are added" is false. -/
theorem no_sdk_require_adds_libs_counterexample :
    arnoldRequire ⟨[], []⟩ [] "linux" "14.0" {} = .ok { ({} : Env) with libs := ["ai"] } ∧
    ({} : Env).libs = [] ∧
    (pyRequire pySampleSys [] [] false {}).1 =
      .ok ({ ({} : Env) with
               ccFlags := " -DPY_VER=9.9 -g",
               cppPath := ["/usr/include/python9.9"],
               linkFlags := " -Xlinker -export-dynamic",
               libs := ["python9.9"] }, []) := by
  refine ⟨rfl, rfl, rfl⟩

/-- Claim C2 (amended): with no SDK configured (no `with-<sdk>` argument
and no `MAYA_LOCATION`), every `Version()` variant returns its default —
all zeros for Arnold, `""`/`None` for Maya and Houdini (Houdini warning
once), the running interpreter's version for Python — and the `Require`
calls of the claim's modules complete without raising; Maya's `Require`
leaves the environment untouched, but Arnold's still appends the `ai`
library and Python's falls back to the running interpreter's configuration
(appending its library on a non-framework posix host). -/
theorem no_sdk_configured_defaults (fs : FS) (args : Args) (envv : EnvVars) (sys : PySys)
    (platform archDir mscver : String) (env : Env) (w : List String)
    (ha1 : getArg args "with-arnold" = none)
    (ha2 : getArg args "with-arnold-inc" = none)
    (ha3 : getArg args "with-arnold-lib" = none)
    (hm1 : getArg args "with-maya" = none)
    (hm2 : dictGet envv "MAYA_LOCATION" = none)
    (hh1 : getArg args "with-houdini" = none)
    (hp1 : getArg args "with-python" = none) :
    (arnoldVersion fs args platform true false = .ok (.str "0.0.0.0") ∧
     arnoldVersion fs args platform false false = .ok (.t4 0 0 0 0) ∧
     arnoldVersion fs args platform true true = .ok (.str "0.0") ∧
     arnoldVersion fs args platform false true = .ok (.t2 0 0)) ∧
    (∀ asString nice, mayaVersion fs args envv platform archDir asString nice =
      .ok (if asString then .str "" else .noneV)) ∧
    (∀ asString full, houVersion fs args platform archDir asString full w =
      .ok ((if asString then .str "" else .noneV),
        warnOnce "Please set Houdini version or directory using with-houdini=" w)) ∧
    (pyVersion sys args [] = (.ok (sys.pythonVersion, []), [])) ∧
    (arnoldRequire fs args platform mscver env = .ok { env with libs := env.libs ++ ["ai"] }) ∧
    (mayaRequire fs args envv platform archDir env = .ok env) ∧
    (∀ ignoreLink cache, pyRequire sys args cache ignoreLink env =
      (.ok ((pyRequireDefault sys ignoreLink env).1, cache),
       (pyRequireDefault sys ignoreLink env).2)) ∧
    (¬sys.platform = "win32" → sys.pythonFramework = "" →
      (pyRequireDefault sys false env).1.libs = env.libs ++ ["python" ++ sys.ldversion]) := by
  have hdirs : arnoldGetDirs args platform = (none, none) := by
    simp [arnoldGetDirs, ha1, ha2, ha3, Option.orElse]
  have hinc : (arnoldGetDirs args platform).1 = none := by rw [hdirs]
  have hlib : (arnoldGetDirs args platform).2 = none := by rw [hdirs]
  have hav : ∀ asString compat, arnoldVersion fs args platform asString compat =
      .ok (if compat then (if asString then .str "0.0" else .t2 0 0)
           else (if asString then .str "0.0.0.0" else .t4 0 0 0 0)) := by
    intro asString compat
    simp only [arnoldVersion, hinc]
  have hroot : ∀ b, getMayaRoot fs args envv platform archDir b = none := by
    intro b
    simp [getMayaRoot, hm1, hm2, pyTruthy]
  have hmv : ∀ asString nice, mayaVersion fs args envv platform archDir asString nice =
      .ok (if asString then .str "" else .noneV) := by
    intro asString nice
    simp only [mayaVersion, hroot true]
  have hgvd : houGVD fs args platform archDir true w =
      .ok ((none, none),
        warnOnce "Please set Houdini version or directory using with-houdini=" w) := by
    simp [houGVD, hh1, houFailRes]
  refine ⟨⟨by simpa using hav true false, by simpa using hav false false,
           by simpa using hav true true, by simpa using hav false true⟩,
          hmv, ?_, ?_, ?_, ?_, ?_, ?_⟩
  · intro asString full
    simp only [houVersion, hgvd]
  · simp [pyVersion, hp1]
  · have h0 : arnoldVersion fs args platform false false = .ok (.t4 0 0 0 0) := by
      simpa using hav false false
    simp only [arnoldRequire, hinc, hlib, h0]
    have hc5 : ¬((0 : Int) ≥ 5 ∧ platform = "win32") := by
      rintro ⟨h5, -⟩
      omega
    have hc6 : ¬((0 : Int) ≥ 6 ∧ ¬platform = "win32" ∧
        !(listHasInfix "-std=c++11".toList env.cxxFlags.toList) = true) := by
      rintro ⟨h6, -⟩
      omega
    simp [hc5, hc6]
  · simp [mayaRequire, hroot false]
  · intro ignoreLink cache
    simp [pyRequire, hp1]
  · intro hplat hfw
    simp [pyRequireDefault, hfw, hplat]

/-- Witness for the amended claim C2 at a fully unconfigured state. -/
theorem no_sdk_configured_defaults_witness :
    arnoldVersion ⟨[], []⟩ [] "linux" true false = .ok (.str "0.0.0.0") ∧
    mayaVersion ⟨[], []⟩ [] [] "linux" "x64" true true = .ok (.str "") ∧
    houVersion ⟨[], []⟩ [] "linux" "x64" true true [] =
      .ok (.str "", ["Please set Houdini version or directory using with-houdini="]) ∧
    pyVersion pySampleSys [] [] = (.ok ("9.9", []), []) ∧
    arnoldRequire ⟨[], []⟩ [] "linux" "14.0" {} = .ok { ({} : Env) with libs := ["ai"] } ∧
    mayaRequire ⟨[], []⟩ [] [] "linux" "x64" {} = .ok ({} : Env) ∧
    (pyRequireDefault pySampleSys false {}).1.libs = ["python9.9"] := by
  have h := no_sdk_configured_defaults ⟨[], []⟩ [] [] pySampleSys "linux" "x64" "14.0" {} []
    rfl rfl rfl rfl rfl rfl rfl
  exact ⟨h.1.1, h.2.1 true true, h.2.2.1 true true, h.2.2.2.1, h.2.2.2.2.1,
    h.2.2.2.2.2.1, h.2.2.2.2.2.2.2 (by decide) rfl⟩
